import Mathlib

/-
  Verification of the Adaptive Quiz Session Engine
  (FastAPI backend: quiz flow, adaptive difficulty engine, cache service,
  analytics rollup).

  Shallow embedding conventions:
  * SQL rows become Lean structures; the database becomes a `DB` record of
    lists kept in insertion order (insertion order models `created_at`
    ordering, since rows are timestamped with the server clock at insert).
  * Python float arithmetic is modelled in `ℚ`; `round(x, 2)` is modelled
    as round-half-to-even at two decimals (`pyRound2`).
  * Fallible endpoints return `Except ApiError`; an HTTP 404 is `notFound`,
    the 400 "already completed"/"already answered" rejections are the
    spec's Conflict kind (`conflict`), and an unhandled/500 outcome is
    `serverError`.
  * External collaborators (Redis, the Groq generator) are modelled by
    passing their outcome as an explicit argument: `Except Unit v` is a
    call that either raised (`error`) or returned `v`.
  * String case folding is ASCII (`String.toLower`), whitespace trimming
    is `String.trim`, matching the Python code on the ASCII fragment.
-/

namespace AdaptiveQuiz

/-! ## Enumerations (app/models/question.py, app/models/quiz.py) -/

/-- `Difficulty` enum from app/models/question.py. -/
inductive Difficulty where
  | easy
  | medium
  | hard
deriving DecidableEq, Repr

/-- The string `.value` of a `Difficulty` member. -/
def Difficulty.value : Difficulty → String
  | .easy => "easy"
  | .medium => "medium"
  | .hard => "hard"

/-- `Difficulty(s)` enum construction; `none` models the `ValueError`
raised by Python on an unknown value. -/
def Difficulty.ofString? : String → Option Difficulty
  | "easy" => some .easy
  | "medium" => some .medium
  | "hard" => some .hard
  | _ => none

/-- `QuestionType` enum from app/models/question.py. -/
inductive QuestionType where
  | mcq
  | true_false
  | short_answer
deriving DecidableEq, Repr

/-- The string `.value` of a `QuestionType` member. -/
def QuestionType.value : QuestionType → String
  | .mcq => "mcq"
  | .true_false => "true_false"
  | .short_answer => "short_answer"

/-- `QuestionType(s)` enum construction; `none` models the `ValueError`. -/
def QuestionType.ofString? : String → Option QuestionType
  | "mcq" => some .mcq
  | "true_false" => some .true_false
  | "short_answer" => some .short_answer
  | _ => none

/-- `QuizStatus` enum from app/models/quiz.py. -/
inductive QuizStatus where
  | in_progress
  | completed
  | abandoned
deriving DecidableEq, Repr

/-! ## Row types (app/models) -/

/-- A row of the `content` table (app/models/content.py), restricted to
the columns the quiz flow reads. -/
structure Content where
  id : Nat
  user_id : Nat
  title : Option String
  raw_text : String
deriving DecidableEq, Repr

/-- A row of the `questions` table (app/models/question.py). -/
structure Question where
  id : Nat
  content_id : Nat
  question_text : String
  question_type : QuestionType
  options : Option (List String)
  correct_answer : String
  explanation : Option String
  difficulty : Difficulty
  topic : Option String
deriving DecidableEq, Repr

/-- A row of the `quizzes` table (app/models/quiz.py).  `started_at` and
`completed_at` are abstract clock ticks. -/
structure Quiz where
  id : Nat
  user_id : Nat
  content_id : Option Nat
  topic : Option String
  total_questions : Nat
  initial_difficulty : String
  status : QuizStatus
  score : Option ℚ
  correct_answers : Nat
  total_time_seconds : Option Int
  started_at : Nat
  completed_at : Option Nat
deriving DecidableEq, Repr

/-- A row of the `user_responses` table (app/models/response.py).
`created_at` is represented by the position in `DB.responses`. -/
structure UserResponse where
  quiz_id : Nat
  question_id : Nat
  user_answer : String
  is_correct : Bool
  time_taken_seconds : Option Int
  difficulty_at_attempt : String
deriving DecidableEq, Repr

/-- The relational store.  Lists are in insertion (= `created_at`) order;
`nextQuestionId`/`nextQuizId` model the autoincrement counters and `now`
the server clock. -/
structure DB where
  contents : List Content
  questions : List Question
  quizzes : List Quiz
  responses : List UserResponse
  nextQuestionId : Nat
  nextQuizId : Nat
  now : Nat
deriving DecidableEq, Repr

/-! ## Request / response schemas (app/schemas/quiz.py) -/

/-- `QuizGenerateRequest`. -/
structure QuizGenerateRequest where
  content_id : Nat
  num_questions : Nat
  difficulty : Difficulty
  question_types : List QuestionType
deriving DecidableEq, Repr

/-- `QuestionResponse`: the public projection of a question.  It has no
`correct_answer` and no `explanation` field. -/
structure QuestionResponse where
  id : Nat
  question_text : String
  question_type : QuestionType
  options : Option (List String)
  difficulty : Difficulty
  topic : Option String
deriving DecidableEq, Repr

/-- `QuizResponse`. -/
structure QuizResponse where
  id : Nat
  user_id : Nat
  content_id : Option Nat
  topic : Option String
  total_questions : Nat
  status : QuizStatus
  score : Option ℚ
  correct_answers : Nat
  started_at : Nat
  completed_at : Option Nat
  questions : List QuestionResponse
deriving DecidableEq, Repr

/-- `AnswerSubmit`. -/
structure AnswerSubmit where
  question_id : Nat
  user_answer : String
  time_taken_seconds : Option Int
deriving DecidableEq, Repr

/-- `AnswerResult`. -/
structure AnswerResult where
  is_correct : Bool
  correct_answer : String
  explanation : Option String
  next_difficulty : Option Difficulty
deriving DecidableEq, Repr

/-- `QuizResults` (completion payload). -/
structure QuizResults where
  quiz_id : Nat
  score : ℚ
  correct_answers : Nat
  total_questions : Nat
  total_time_seconds : Option Int
  accuracy : ℚ
  difficulty_progression : List String
deriving DecidableEq, Repr

/-- Error kinds of the API surface (§7 of the design): HTTP 404 is
`notFound`; the 400 rejections "Quiz already completed" / "Question
already answered" are the Conflict kind; an unhandled error (HTTP 500)
is `serverError`. -/
inductive ApiError where
  | notFound (detail : String)
  | conflict (detail : String)
  | serverError (detail : String)
deriving DecidableEq, Repr

deriving instance DecidableEq for Except

/-! ## Python-arithmetic helpers -/

/-- `s.strip().lower()` on the ASCII fragment: drop leading and trailing
whitespace, then lowercase every character. -/
def pyStripLower (s : String) : String :=
  String.mk (((s.data.dropWhile Char.isWhitespace).reverse.dropWhile
    Char.isWhitespace).reverse.map Char.toLower)

/-- Python's banker's rounding to an integer, on an exact rational.
`x.num.fdiv x.den` is the floor of `x` (floor division by the positive
denominator). -/
def pyRoundHalfEven (x : ℚ) : ℤ :=
  let f : ℤ := x.num.fdiv x.den
  let r : ℚ := x - (f : ℚ)
  if r < 1/2 then f
  else if 1/2 < r then f + 1
  else if f % 2 = 0 then f else f + 1

/-- `round(x, 2)`. -/
def pyRound2 (x : ℚ) : ℚ :=
  (pyRoundHalfEven (x * 100) : ℚ) / 100

/-- The last `n` elements of a list (Python `xs[-n:]`, and also the
result of `ORDER BY created_at DESC LIMIT n` read back in chronological
order). -/
def lastN (n : Nat) (xs : List α) : List α :=
  xs.drop (xs.length - n)

/-! ## Adaptive difficulty engine (app/services/adaptive_engine.py) -/

/-- `AdaptiveDifficultyEngine.DIFFICULTY_LEVELS`. -/
def DIFFICULTY_LEVELS : List Difficulty :=
  [.easy, .medium, .hard]

/-- `AdaptiveDifficultyEngine.PERFORMANCE_WINDOW`. -/
def PERFORMANCE_WINDOW : Nat := 5

/-- `DIFFICULTY_LEVELS.index(d)`. -/
def difficultyIndex : Difficulty → Nat
  | .easy => 0
  | .medium => 1
  | .hard => 2

/-- `calculate_next_difficulty` (adaptive_engine.py, lines 23-52).
`4/5` and `2/5` are the `increase`/`decrease` accuracy thresholds. -/
def calculate_next_difficulty (current_difficulty : Difficulty)
    (recent_responses : List Bool) : Difficulty :=
  if recent_responses.length < 2 then current_difficulty
  else
    let recent := lastN PERFORMANCE_WINDOW recent_responses
    let accuracy : ℚ := (recent.count true : ℚ) / (recent.length : ℚ)
    let current_idx := difficultyIndex current_difficulty
    let new_idx :=
      if accuracy ≥ 4/5 then min (current_idx + 1) (DIFFICULTY_LEVELS.length - 1)
      else if accuracy ≤ 2/5 then current_idx - 1
      else current_idx
    DIFFICULTY_LEVELS.getD new_idx .easy

/-- `get_user_performance_history` (adaptive_engine.py, lines 54-68):
the last `limit` responses of the quiz by `created_at` descending,
restored to chronological order, projected to `is_correct`. -/
def get_user_performance_history (responses : List UserResponse)
    (quiz_id : Nat) (limit : Nat) : List Bool :=
  lastN limit ((responses.filter (fun r => r.quiz_id == quiz_id)).map (fun r => r.is_correct))

/-- Result dictionary of `calculate_quiz_score`. -/
structure ScoreResult where
  score : ℚ
  accuracy : ℚ
  correct_answers : Nat
  total_questions : Nat
deriving DecidableEq, Repr

/-- `calculate_quiz_score` (adaptive_engine.py, lines 99-130). -/
def calculate_quiz_score (responses : List UserResponse) (quiz_id : Nat) : ScoreResult :=
  let rs := responses.filter (fun r => r.quiz_id == quiz_id)
  if rs.isEmpty then ⟨0, 0, 0, 0⟩
  else
    let correct := rs.countP (fun r => r.is_correct)
    let total := rs.length
    let accuracy : ℚ := ((correct : ℚ) / (total : ℚ)) * 100
    let score := accuracy
    ⟨pyRound2 score, pyRound2 accuracy, correct, total⟩

/-! ## Generator candidates and validation (app/services/groq_service.py) -/

/-- A candidate question dictionary parsed from the generator's JSON.
`none` in a field means the key is absent from the dictionary. -/
structure Candidate where
  question : Option String
  type : Option String
  options : Option (List String)
  correct_answer : Option String
  explanation : Option String
  difficulty : Option String
  topic : Option String
deriving DecidableEq, Repr

/-- One iteration of the validation loop of `_validate_questions`
(groq_service.py, lines 119-153): `none` models `continue`. -/
def validateOne (expected_types : List String) (q : Candidate) : Option Candidate :=
  if q.question.isNone || q.type.isNone || q.correct_answer.isNone then none
  else
    match q.type with
    | none => none
    | some t =>
      if !(expected_types.contains t) then none
      else if t == "mcq" && !(match q.options with
                              | some os => os.length == 4
                              | none => false) then none
      else some
        { q with
          options := if t == "true_false" then some ["True", "False"] else q.options
          explanation := some (q.explanation.getD "")
          difficulty := some (q.difficulty.getD "medium")
          topic := some (q.topic.getD "General") }

/-- `_validate_questions` (groq_service.py, lines 119-153). -/
def validate_questions (questions : List Candidate) (expected_types : List String) :
    List Candidate :=
  questions.filterMap (validateOne expected_types)

/-! ## Cache service (app/services/cache_service.py, app/core/redis.py)

A Redis call is modelled by its outcome: `Except.error ()` is a raised
exception, `Except.ok none` a missing key, `Except.ok (some v)` a hit. -/

/-- The question-list dictionary cached under
`questions:content:{id}:difficulty:{d}` by `cache_generated_questions`. -/
structure CachedQuestion where
  id : Nat
  question_text : String
  question_type : String
  options : Option (List String)
  correct_answer : String
  difficulty : String
  topic : Option String
deriving DecidableEq, Repr

/-- `CacheService.get_cached_questions`: the `try`/`except` wrapper turns
a raised cache error into `None` (a miss). -/
def get_cached_questions (outcome : Except Unit (Option (List CachedQuestion))) :
    Option (List CachedQuestion) :=
  match outcome with
  | .error _ => none
  | .ok none => none
  | .ok (some v) => some v

/-- `CacheService.cache_generated_questions`: a failing `set` is
swallowed (logged only). -/
def cache_generated_questions (outcome : Except Unit Unit) : Unit :=
  match outcome with
  | .error _ => ()
  | .ok u => u

/-- `CacheService.invalidate_user_cache`: a failing `delete` is
swallowed (logged only). -/
def invalidate_user_cache (outcome : Except Unit Unit) : Unit :=
  match outcome with
  | .error _ => ()
  | .ok u => u

/-! ## Quiz endpoints (app/api/v1/quiz.py) -/

/-- `QuestionResponse.model_validate(q)` on an ORM `Question` row: the
projection keeps only the public columns. -/
def questionResponseOfRow (q : Question) : QuestionResponse :=
  ⟨q.id, q.question_text, q.question_type, q.options, q.difficulty, q.topic⟩

/-- `QuestionResponse(**q)` on a cached question dictionary: pydantic
parses `question_type`/`difficulty` strings into enums (a bad value
raises, modelled as `none`) and ignores the extra `correct_answer` key. -/
def questionResponseOfCached (c : CachedQuestion) : Option QuestionResponse :=
  match QuestionType.ofString? c.question_type, Difficulty.ofString? c.difficulty with
  | some qt, some d => some ⟨c.id, c.question_text, qt, c.options, d, c.topic⟩
  | _, _ => none

/-- Parse a whole cached question list; any bad entry raises (`none`). -/
def buildCachedResponses : List CachedQuestion → Option (List QuestionResponse)
  | [] => some []
  | c :: cs =>
    match questionResponseOfCached c, buildCachedResponses cs with
    | some r, some rs => some (r :: rs)
    | _, _ => none

/-- Creation of a `Question` row from a validated candidate
(quiz.py, lines 78-90); the enum constructors raise on a value outside
the enum (`none`). The validated fields are present by construction of
`validate_questions`; absent ones keep Python's `KeyError` out of scope
via the dictionary defaults already applied. -/
def rowOfCandidate (qid : Nat) (content_id : Nat) (q : Candidate) : Option Question :=
  match QuestionType.ofString? (q.type.getD ""), Difficulty.ofString? (q.difficulty.getD "") with
  | some qt, some d =>
    some ⟨qid, content_id, q.question.getD "", qt, q.options,
          q.correct_answer.getD "", q.explanation, d, q.topic⟩
  | _, _ => none

/-- Sequential insertion of the validated candidates with autoincrement
ids (the `for q_data in generated` loop of quiz.py). -/
def buildRows (qid content_id : Nat) : List Candidate → Option (List Question)
  | [] => some []
  | c :: cs =>
    match rowOfCandidate qid content_id c, buildRows (qid + 1) content_id cs with
    | some r, some rs => some (r :: rs)
    | _, _ => none

/-- The `QuizResponse(...)` constructor call shared by `generate_quiz`
and `get_quiz`. -/
def quizToResponse (quiz : Quiz) (qs : List QuestionResponse) : QuizResponse :=
  ⟨quiz.id, quiz.user_id, quiz.content_id, quiz.topic, quiz.total_questions,
   quiz.status, quiz.score, quiz.correct_answers, quiz.started_at,
   quiz.completed_at, qs⟩

/-- The fresh `Quiz(...)` row of quiz.py, lines 113-119 (column defaults
from app/models/quiz.py: `in_progress`, `correct_answers = 0`,
nullable results). -/
def newQuizRow (db : DB) (caller : Nat) (content : Content)
    (total : Nat) (difficulty : Difficulty) : Quiz :=
  ⟨db.nextQuizId, caller, some content.id, content.title, total,
   difficulty.value, .in_progress, none, 0, none, db.now, none⟩

/-- The list returned by `generate_questions`: the raw candidate list,
or `[]` when the Groq call raised (groq_service.py, lines 59-61). -/
def generatorOutput : Except Unit (List Candidate) → List Candidate
  | .error _ => []
  | .ok cands => cands

/-- The generation path of `POST /quiz/generate` (quiz.py, lines
59-110): call the generator, validate, fail when nothing is usable,
else persist the new `Question` rows, then materialize the session. -/
def generate_from_generator (db : DB) (caller : Nat) (req : QuizGenerateRequest)
    (content : Content) (genRes : Except Unit (List Candidate)) :
    Except ApiError (QuizResponse × DB) :=
  let raw := generatorOutput genRes
  let generated := validate_questions raw (req.question_types.map QuestionType.value)
  if generated.isEmpty then .error (.serverError "Failed to generate questions")
  else
    match buildRows db.nextQuestionId content.id generated with
    | none => .error (.serverError "Internal Server Error")
    | some rows =>
      let quiz := newQuizRow { db with nextQuestionId := db.nextQuestionId + rows.length }
                    caller content rows.length req.difficulty
      let db' := { db with questions := db.questions ++ rows,
                           nextQuestionId := db.nextQuestionId + rows.length,
                           quizzes := db.quizzes ++ [quiz],
                           nextQuizId := db.nextQuizId + 1 }
      .ok (quizToResponse quiz (rows.map questionResponseOfRow), db')

/-- `POST /quiz/generate` (quiz.py, lines 30-147).
`cacheRes` is the Redis `get` outcome, `genRes` the Groq call outcome. -/
def generate_quiz (db : DB) (caller : Nat) (req : QuizGenerateRequest)
    (cacheRes : Except Unit (Option (List CachedQuestion)))
    (genRes : Except Unit (List Candidate)) :
    Except ApiError (QuizResponse × DB) :=
  match db.contents.find? (fun c => c.id == req.content_id && c.user_id == caller) with
  | none => .error (.notFound "Content not found")
  | some content =>
    match get_cached_questions cacheRes with
    | some (c :: cs) =>
      -- truthy cached_questions: use the first num_questions entries
      let cqs := (c :: cs).take req.num_questions
      match buildCachedResponses cqs with
      | none => .error (.serverError "Internal Server Error")
      | some qrs =>
        let quiz := newQuizRow db caller content cqs.length req.difficulty
        let db' := { db with quizzes := db.quizzes ++ [quiz],
                             nextQuizId := db.nextQuizId + 1 }
        .ok (quizToResponse quiz qrs, db')
    | _ =>
      -- cache miss (or cached empty list, which is falsy): generate
      generate_from_generator db caller req content genRes

/-- `GET /quiz/{quiz_id}` (quiz.py, lines 150-188): the question list is
re-derived as the first `total_questions` questions of the quiz's
content (`Question.content_id == quiz.content_id LIMIT total_questions`);
a NULL `content_id` matches no row. -/
def get_quiz (db : DB) (caller : Nat) (quiz_id : Nat) :
    Except ApiError QuizResponse :=
  match db.quizzes.find? (fun q => q.id == quiz_id && q.user_id == caller) with
  | none => .error (.notFound "Quiz not found")
  | some quiz =>
    let qs : List Question :=
      match quiz.content_id with
      | some cid => (db.questions.filter (fun q => q.content_id == cid)).take quiz.total_questions
      | none => []
    .ok (quizToResponse quiz (qs.map questionResponseOfRow))

/-- The row update `quiz.correct_answers += 1` (applied when the answer
is correct) committed against the quiz's primary key. -/
def submitQuizUpd (quiz_id : Nat) (correct : Bool) (q : Quiz) : Quiz :=
  if q.id == quiz_id then
    (if correct then { q with correct_answers := q.correct_answers + 1 } else q)
  else q

/-- `POST /quiz/{quiz_id}/submit-answer` (quiz.py, lines 191-274). -/
def submit_answer (db : DB) (caller : Nat) (quiz_id : Nat) (answer : AnswerSubmit) :
    Except ApiError (AnswerResult × DB) :=
  match db.quizzes.find? (fun q => q.id == quiz_id && q.user_id == caller) with
  | none => .error (.notFound "Quiz not found")
  | some quiz =>
    if quiz.status == .completed then .error (.conflict "Quiz already completed")
    else
      match db.questions.find? (fun q => q.id == answer.question_id) with
      | none => .error (.notFound "Question not found")
      | some question =>
        if (db.responses.find? (fun r =>
              r.quiz_id == quiz_id && r.question_id == answer.question_id)).isSome
        then .error (.conflict "Question already answered")
        else
          let is_correct :=
            pyStripLower answer.user_answer == pyStripLower question.correct_answer
          let response : UserResponse :=
            ⟨quiz_id, question.id, answer.user_answer, is_correct,
             answer.time_taken_seconds, question.difficulty.value⟩
          -- primary-key update of the fetched quiz row
          let db' := { db with
            responses := db.responses ++ [response],
            quizzes := db.quizzes.map (submitQuizUpd quiz_id is_correct) }
          let performance_history := get_user_performance_history db'.responses quiz_id 10
          let next_difficulty := calculate_next_difficulty question.difficulty performance_history
          .ok (⟨is_correct, question.correct_answer, question.explanation,
                some next_difficulty⟩, db')

/-- `total_time = sum(r.time_taken_seconds for r in responses if
r.time_taken_seconds)` (quiz.py, line 314): the generator's `if` filters
out `NULL` and `0`, both falsy, before summing. -/
def totalTimeFor (db : DB) (quiz_id : Nat) : Int :=
  (((db.responses.filter (fun r => r.quiz_id == quiz_id)).filterMap
    (fun r => r.time_taken_seconds)).filter (fun t => t != 0)).sum

/-- The column updates of quiz.py, lines 307-315, applied to the
fetched quiz row. -/
def completedQuizRow (db : DB) (quiz_id : Nat) (quiz : Quiz) : Quiz :=
  { quiz with
    status := .completed
    score := some (calculate_quiz_score db.responses quiz_id).score
    correct_answers := (calculate_quiz_score db.responses quiz_id).correct_answers
    completed_at := some db.now
    total_time_seconds := some (totalTimeFor db quiz_id) }

/-- Commit of the updated row against the quiz's primary key. -/
def completeQuizUpd (quiz_id : Nat) (quizC : Quiz) (q : Quiz) : Quiz :=
  if q.id == quiz_id then quizC else q

/-- `POST /quiz/{quiz_id}/complete` (quiz.py, lines 277-335). -/
def complete_quiz (db : DB) (caller : Nat) (quiz_id : Nat) :
    Except ApiError (QuizResults × DB) :=
  match db.quizzes.find? (fun q => q.id == quiz_id && q.user_id == caller) with
  | none => .error (.notFound "Quiz not found")
  | some quiz =>
    if quiz.status == .completed then .error (.conflict "Quiz already completed")
    else
      let results := calculate_quiz_score db.responses quiz_id
      let responses := db.responses.filter (fun r => r.quiz_id == quiz_id)
      let total_time : Int := totalTimeFor db quiz_id
      let db' := { db with
        quizzes := db.quizzes.map (completeQuizUpd quiz_id (completedQuizRow db quiz_id quiz)) }
      let difficulty_progression := responses.map (fun r => r.difficulty_at_attempt)
      .ok (⟨quiz.id, results.score, results.correct_answers, results.total_questions,
            some total_time, results.accuracy, difficulty_progression⟩, db')

/-! ## Analytics overview (app/api/v1/analytics.py) -/

/-- The scalar fields of `AnalyticsOverview` computed on a cache miss
(analytics.py, lines 39-61 and the rounding of lines 124-125). -/
structure OverviewScalars where
  total_quizzes : Nat
  total_questions_answered : Nat
  overall_accuracy : ℚ
  avg_score : ℚ
deriving DecidableEq, Repr

/-- The recomputation path of `get_analytics_overview`: the numerator of
`avg_score` keeps only truthy scores (`if q.score` drops both `None`
and `0.0`), while the denominator is `total_quizzes`, the number of all
completed sessions. -/
def analytics_overview_scalars (db : DB) (userId : Nat) : OverviewScalars :=
  let completed_quizzes := db.quizzes.filter (fun q =>
    q.user_id == userId && q.status == .completed)
  let total_quizzes := completed_quizzes.length
  if total_quizzes == 0 then ⟨0, 0, 0, 0⟩
  else
    let total_questions : Nat := (completed_quizzes.map (fun q => q.total_questions)).sum
    let total_correct : Nat := (completed_quizzes.map (fun q => q.correct_answers)).sum
    let overall_accuracy : ℚ :=
      if total_questions > 0 then ((total_correct : ℚ) / (total_questions : ℚ)) * 100 else 0
    let avg_score : ℚ :=
      (((completed_quizzes.filterMap (fun q => q.score)).filter (fun s => s != 0)).sum)
        / (total_quizzes : ℚ)
    ⟨total_quizzes, total_questions, pyRound2 overall_accuracy, pyRound2 avg_score⟩

/-- `CacheService.get_cached_analytics`: a raised cache error is caught
and returned as `None`. -/
def get_cached_analytics (outcome : Except Unit (Option OverviewScalars)) :
    Option OverviewScalars :=
  match outcome with
  | .error _ => none
  | .ok v => v

/-- `GET /analytics/overview` (scalar part): return the cached rollup on
a hit, else recompute. -/
def get_analytics_overview_scalars (db : DB) (userId : Nat)
    (cacheRes : Except Unit (Option OverviewScalars)) : OverviewScalars :=
  match get_cached_analytics cacheRes with
  | some cached => cached
  | none => analytics_overview_scalars db userId

/-! ## Spec-side definitions

These follow the wording of the specification (for refinement
comparisons against the code-derived definitions above). -/

/-- One difficulty level higher, clamped at Hard (spec §4.3). -/
def Difficulty.up : Difficulty → Difficulty
  | .easy => .medium
  | .medium => .hard
  | .hard => .hard

/-- One difficulty level lower, clamped at Easy (spec §4.3). -/
def Difficulty.down : Difficulty → Difficulty
  | .easy => .easy
  | .medium => .easy
  | .hard => .medium

/-- The adaptive signal exactly as the claim words it: with fewer than 2
responses in total keep `d`; otherwise take the most recent window of
`min 5 n` of the session's chronologically ordered correctness flags and
compare `correct / windowSize` against the 0.80 / 0.40 thresholds. -/
def specNextDifficulty (d : Difficulty) (flags : List Bool) : Difficulty :=
  if flags.length < 2 then d
  else
    let w := lastN (min 5 flags.length) flags
    let acc : ℚ := (w.count true : ℚ) / (w.length : ℚ)
    if acc ≥ 4/5 then d.up
    else if acc ≤ 2/5 then d.down
    else d

/-- The session's responses in chronological (insertion) order. -/
def responsesFor (db : DB) (quiz_id : Nat) : List UserResponse :=
  db.responses.filter (fun r => r.quiz_id == quiz_id)

/-- The session's chronologically ordered correctness flags. -/
def sessionFlags (db : DB) (quiz_id : Nat) : List Bool :=
  (responsesFor db quiz_id).map (fun r => r.is_correct)

/-- Modelled from the spec: `avg_score = mean(score)` over the user's
completed sessions with a non-null score, the denominator counting only
those sessions (spec §4.5, used to compare against the code's
`avg_score`). -/
def specMeanNonNull (db : DB) (userId : Nat) : ℚ :=
  let completed := db.quizzes.filter (fun q =>
    q.user_id == userId && q.status == .completed)
  let scores := completed.filterMap (fun q => q.score)
  scores.sum / (scores.length : ℚ)

/-- Keep-predicate of generator-candidate validation, worded as in the
claim: the candidate carries `question`, `type` and `correctAnswer`, its
type is allowed, and an MCQ has exactly 4 options. -/
def specKeep (expected_types : List String) (q : Candidate) : Bool :=
  q.question.isSome && q.correct_answer.isSome &&
    (match q.type with
     | none => false
     | some t =>
       expected_types.contains t &&
         (t != "mcq" || (match q.options with
                         | some os => os.length == 4
                         | none => false)))

/-- Normalization of a kept candidate, worded as in the amended claim:
TrueFalse options become exactly `["True", "False"]`; a missing
explanation defaults to empty, a missing topic to `"General"`, and a
missing difficulty to `"medium"`. -/
def specNormalize (q : Candidate) : Candidate :=
  { q with
    options := if q.type == some "true_false" then some ["True", "False"] else q.options
    explanation := some (q.explanation.getD "")
    difficulty := some (q.difficulty.getD "medium")
    topic := some (q.topic.getD "General") }

/-- Candidate validation as the amended claim words it: filter by
`specKeep`, then normalize. -/
def specValidate (questions : List Candidate) (expected_types : List String) :
    List Candidate :=
  (questions.filter (specKeep expected_types)).map specNormalize

/-! ## Secret-field scrubbing (for the non-leakage claim) -/

/-- Erase a question row's canonical answer and explanation. -/
def scrubQuestion (q : Question) : Question :=
  { q with correct_answer := "", explanation := none }

/-- Erase the canonical answer of a cached question dictionary. -/
def scrubCached (c : CachedQuestion) : CachedQuestion :=
  { c with correct_answer := "" }

/-- Erase a candidate's canonical answer and explanation, preserving
key presence. -/
def scrubCandidate (c : Candidate) : Candidate :=
  { c with
    correct_answer := c.correct_answer.map (fun _ => "")
    explanation := c.explanation.map (fun _ => "") }

/-- Erase every question secret in the store. -/
def scrubDB (db : DB) : DB :=
  { db with questions := db.questions.map scrubQuestion }

/-- Erase the secrets inside a cache outcome. -/
def scrubCacheRes (outcome : Except Unit (Option (List CachedQuestion))) :
    Except Unit (Option (List CachedQuestion)) :=
  outcome.map (fun v => v.map (fun l => l.map scrubCached))

/-- Erase the secrets inside a generator outcome. -/
def scrubGenRes (outcome : Except Unit (List Candidate)) :
    Except Unit (List Candidate) :=
  outcome.map (fun l => l.map scrubCandidate)

/-! ## Transition system -/

/-- One successful state-changing API call. -/
inductive AnyStep (db db' : DB) : Prop where
  | gen (caller : Nat) (req : QuizGenerateRequest)
      (cacheRes : Except Unit (Option (List CachedQuestion)))
      (genRes : Except Unit (List Candidate)) (resp : QuizResponse)
      (h : generate_quiz db caller req cacheRes genRes = .ok (resp, db'))
  | submit (caller quiz_id : Nat) (ans : AnswerSubmit) (res : AnswerResult)
      (h : submit_answer db caller quiz_id ans = .ok (res, db'))
  | complete (caller quiz_id : Nat) (res : QuizResults)
      (h : complete_quiz db caller quiz_id = .ok (res, db'))

/-- States reachable from a store with no quiz sessions and no
responses (contents and questions may pre-exist). -/
inductive Reachable : DB → Prop where
  | base (db : DB) (hq : db.quizzes = []) (hr : db.responses = []) : Reachable db
  | step (db db' : DB) (h : Reachable db) (hs : AnyStep db db') : Reachable db'

/-- Admissible status change of a single session row (spec §3):
unchanged, or InProgress to a terminal state. -/
def statusStep (a b : QuizStatus) : Prop :=
  a = b ∨ (a = .in_progress ∧ (b = .completed ∨ b = .abandoned))

/-- State invariant maintained by the API (proved below for all
reachable states). -/
structure Inv (db : DB) : Prop where
  pairsUnique : db.responses.Pairwise (fun a b =>
    ¬(a.quiz_id = b.quiz_id ∧ a.question_id = b.question_id))
  responseQuestionExists : ∀ r ∈ db.responses, ∃ q ∈ db.questions, q.id = r.question_id
  noAbandoned : ∀ qz ∈ db.quizzes, qz.status ≠ .abandoned
  quizIdsNodup : (db.quizzes.map (fun q => q.id)).Nodup
  quizIdsLt : ∀ qz ∈ db.quizzes, qz.id < db.nextQuizId

/-! ## Concrete scenarios -/

/-- A content row owned by user 1. -/
def exContent : Content := ⟨1, 1, some "Topic", "text"⟩

/-- A well-formed MCQ candidate with the given difficulty label. -/
def mkCand (d : String) : Candidate :=
  ⟨some "Q", some "mcq", some ["A", "B", "C", "D"], some "A", none, some d, none⟩

/-- An MCQ candidate whose `difficulty` key is absent. -/
def candNoDiff : Candidate :=
  ⟨some "Q", some "mcq", some ["A", "B", "C", "D"], some "A", none, none, none⟩

/-- Initial store: one content row, no questions, no sessions. -/
def db0 : DB := ⟨[exContent], [], [], [], 1, 1, 0⟩

/-- Quiz request: content 1, 5 questions, medium, MCQ only. -/
def req1 : QuizGenerateRequest := ⟨1, 5, .medium, [.mcq]⟩

/-- Quiz request: content 1, 5 questions, hard, MCQ only. -/
def req2 : QuizGenerateRequest := ⟨1, 5, .hard, [.mcq]⟩

/-- Five valid medium candidates. -/
def cands1 : List Candidate :=
  [mkCand "medium", mkCand "medium", mkCand "medium", mkCand "medium", mkCand "medium"]

/-- Five valid hard candidates. -/
def cands2 : List Candidate :=
  [mkCand "hard", mkCand "hard", mkCand "hard", mkCand "hard", mkCand "hard"]

/-- Scenario for the `correct_answers ≤ total_questions` bound: create
two quizzes on the same content (questions 1-5 medium, 6-10 hard), then
answer six different questions correctly on quiz 1 (whose
`total_questions` is 5): `submit_answer` never checks that the question
belongs to the quiz. -/
def runC2scenario : Except ApiError DB := do
  let (_, db1) ← generate_quiz db0 1 req1 (.ok none) (.ok cands1)
  let (_, db2) ← generate_quiz db1 1 req2 (.ok none) (.ok cands2)
  let (_, db3) ← submit_answer db2 1 1 ⟨1, "A", none⟩
  let (_, db4) ← submit_answer db3 1 1 ⟨2, " a ", some 3⟩
  let (_, db5) ← submit_answer db4 1 1 ⟨3, "A", none⟩
  let (_, db6) ← submit_answer db5 1 1 ⟨4, "A", none⟩
  let (_, db7) ← submit_answer db6 1 1 ⟨5, "A", none⟩
  let (_, db8) ← submit_answer db7 1 1 ⟨6, "A", none⟩
  pure db8

/-- Scenario for the fixed-question-set claim: quiz 2 is created from
the freshly generated hard questions 6-10, but `get_quiz` re-derives
its list as the first 5 questions of content 1, i.e. the medium
questions 1-5.  Returns (ids at creation, ids at fetch). -/
def runC3scenario : Except ApiError (List Nat × List Nat) := do
  let (_, db1) ← generate_quiz db0 1 req1 (.ok none) (.ok cands1)
  let (resp2, db2) ← generate_quiz db1 1 req2 (.ok none) (.ok cands2)
  let fetched ← get_quiz db2 1 2
  pure (resp2.questions.map (fun q => q.id), fetched.questions.map (fun q => q.id))

/-- Scenario for completion scoring: three answers, one correct, then
complete; `100 * 1 / 3` is rounded to `33.33`. -/
def runC6scenario : Except ApiError QuizResults := do
  let (_, db1) ← generate_quiz db0 1 req1 (.ok none) (.ok cands1)
  let (_, db2) ← submit_answer db1 1 1 ⟨1, "A", some 3⟩
  let (_, db3) ← submit_answer db2 1 1 ⟨2, "x", some 0⟩
  let (_, db4) ← submit_answer db3 1 1 ⟨3, "y", none⟩
  let (r, _) ← complete_quiz db4 1 1
  pure r

/-- Scenario for the generator-validation defaults: a candidate without
a `difficulty` key, requested at difficulty hard. -/
def runC8scenario : Except ApiError (List Difficulty) :=
  (generate_quiz db0 1 req2 (.ok none) (.ok [candNoDiff])).map
    (fun p => p.1.questions.map (fun q => q.difficulty))

/-- Analytics store A: user 1 has two completed sessions, one with
score 80 and one with a null score. -/
def exDbA : DB :=
  ⟨[], [], [⟨1, 1, none, none, 5, "medium", .completed, some 80, 3, none, 0, some 1⟩,
            ⟨2, 1, none, none, 5, "medium", .completed, none, 0, none, 0, some 2⟩],
   [], 1, 3, 5⟩

/-- Analytics store B: user 1 has three completed sessions with scores
66.67, 0 and 0 (all non-null). -/
def exDbB : DB :=
  ⟨[], [], [⟨1, 1, none, none, 3, "medium", .completed, some (6667/100), 2, none, 0, some 1⟩,
            ⟨2, 1, none, none, 3, "medium", .completed, some 0, 0, none, 0, some 2⟩,
            ⟨3, 1, none, none, 3, "medium", .completed, some 0, 0, none, 0, some 3⟩],
   [], 1, 4, 5⟩

/-- Extract the successor store of a successful operation. -/
def dbAfter (r : Except ApiError (α × DB)) (fallback : DB) : DB :=
  match r with
  | .ok (_, db) => db
  | .error _ => fallback

/-- Store after generating quiz 1 (questions 1-5, medium) on `db0`. -/
def db1 : DB := dbAfter (generate_quiz db0 1 req1 (.ok none) (.ok cands1)) db0

/-- The creation response of quiz 1. -/
def resp1 : QuizResponse :=
  match generate_quiz db0 1 req1 (.ok none) (.ok cands1) with
  | .ok (r, _) => r
  | .error _ => ⟨0, 0, none, none, 0, .in_progress, none, 0, 0, none, []⟩

/-- Store after answering question 1 on quiz 1 in `db1`. -/
def dbS : DB := dbAfter (submit_answer db1 1 1 ⟨1, "A", none⟩) db1

/-- The answer result of that submission. -/
def resS : AnswerResult :=
  match submit_answer db1 1 1 ⟨1, "A", none⟩ with
  | .ok (r, _) => r
  | .error _ => ⟨false, "", none, none⟩

/-- Store after completing quiz 1 in `db1` (no answers recorded). -/
def db2c : DB := dbAfter (complete_quiz db1 1 1) db1

/-- The completion payload of that completion. -/
def res2c : QuizResults :=
  match complete_quiz db1 1 1 with
  | .ok (r, _) => r
  | .error _ => ⟨0, 0, 0, 0, none, 0, []⟩

/-- Store after additionally generating quiz 2 (questions 6-10, hard)
on `db2c`. -/
def db3g : DB := dbAfter (generate_quiz db2c 1 req2 (.ok none) (.ok cands2)) db2c

/-- The creation response of quiz 2 on `db2c`. -/
def resp3 : QuizResponse :=
  match generate_quiz db2c 1 req2 (.ok none) (.ok cands2) with
  | .ok (r, _) => r
  | .error _ => ⟨0, 0, none, none, 0, .in_progress, none, 0, 0, none, []⟩

/-- The quiz-1 row of `db1`. -/
def quiz1 : Quiz :=
  ⟨1, 1, some 1, some "Topic", 5, "medium", .in_progress, none, 0, none, 0, none⟩

/-- The quiz-1 row of `dbS` (one correct answer recorded). -/
def quizS : Quiz :=
  ⟨1, 1, some 1, some "Topic", 5, "medium", .in_progress, none, 1, none, 0, none⟩

/-- Is this error the Conflict kind? -/
def ApiError.isConflict : ApiError → Bool
  | .conflict _ => true
  | _ => false

/-- Did the call fail with a Conflict error? -/
def failsWithConflict (r : Except ApiError α) : Bool :=
  match r with
  | .error e => e.isConflict
  | .ok _ => false

/-! # Theorems -/

/-! ## List helpers -/

theorem length_lastN (n : Nat) (xs : List α) : (lastN n xs).length = min n xs.length := by
  unfold lastN
  rw [List.length_drop]
  omega

theorem lastN_lastN (a b : Nat) (hab : a ≤ b) (xs : List α) :
    lastN a (lastN b xs) = lastN a xs := by
  unfold lastN
  rw [List.drop_drop, List.length_drop]
  congr 1
  omega

theorem lastN_min_length (n : Nat) (xs : List α) :
    lastN (min n xs.length) xs = lastN n xs := by
  unfold lastN
  congr 1
  omega

/-! ## C1: the adaptive advisory -/

/-- The engine applied to the last 10 chronological flags computes
exactly the spec's windowed-accuracy advisory over all flags. -/
theorem calculate_eq_spec (d : Difficulty) (flags : List Bool) :
    calculate_next_difficulty d (lastN 10 flags) = specNextDifficulty d flags := by
  have hA : ((lastN 10 flags).length < 2) ↔ (flags.length < 2) := by
    rw [length_lastN]; omega
  have hw : lastN PERFORMANCE_WINDOW (lastN 10 flags) = lastN (min 5 flags.length) flags := by
    rw [show PERFORMANCE_WINDOW = 5 from rfl, lastN_lastN 5 10 (by omega), ← lastN_min_length]
  unfold calculate_next_difficulty specNextDifficulty
  rw [hw]
  by_cases h2 : flags.length < 2
  · rw [if_pos (hA.mpr h2), if_pos h2]
  · rw [if_neg (fun hc => h2 (hA.mp hc)), if_neg h2]
    cases d <;>
      by_cases hup : (((lastN (min 5 flags.length) flags).count true : ℚ) /
          ((lastN (min 5 flags.length) flags).length : ℚ)) ≥ 4/5 <;>
      by_cases hdn : (((lastN (min 5 flags.length) flags).count true : ℚ) /
          ((lastN (min 5 flags.length) flags).length : ℚ)) ≤ 2/5 <;>
      simp [hup, hdn, difficultyIndex, DIFFICULTY_LEVELS, Difficulty.up, Difficulty.down]

/-- C1: the advisory next-difficulty returned by `submit_answer` is the
spec's function of the answered question's difficulty `d` and the
chronologically ordered correctness flags of the session after the
submission: with fewer than 2 responses it is `d` unchanged, otherwise
accuracy over the most recent `min 5 n` responses is compared with the
0.80 / 0.40 thresholds, moving one level up clamped at hard or one
level down clamped at easy, under easy < medium < hard. -/
theorem C1_submit_advisory_windowed (db : DB) (caller quiz_id : Nat)
    (ans : AnswerSubmit) (question : Question) (res : AnswerResult) (db' : DB)
    (hq : db.questions.find? (fun q => q.id == ans.question_id) = some question)
    (h : submit_answer db caller quiz_id ans = .ok (res, db')) :
    res.next_difficulty = some (specNextDifficulty question.difficulty (sessionFlags db' quiz_id)) := by
  unfold submit_answer at h
  split at h
  · simp at h
  · split at h
    · simp at h
    · rw [hq] at h
      split at h
      · simp at h
      next question' heq =>
        obtain rfl : question = question' := by injection heq
        split at h
        · simp at h
        · rw [Except.ok.injEq, Prod.mk.injEq] at h
          obtain ⟨hres, hdb⟩ := h
          subst hdb
          rw [← hres]
          exact congrArg some (calculate_eq_spec question.difficulty (sessionFlags _ quiz_id))

/-- C1 witness: answering question 1 on the fresh quiz 1 of `db1`. -/
theorem C1_submit_advisory_windowed_witness :
    resS.next_difficulty = some (specNextDifficulty Difficulty.medium (sessionFlags dbS 1)) :=
  C1_submit_advisory_windowed db1 1 1 ⟨1, "A", none⟩
    ⟨1, 1, "Q", .mcq, some ["A", "B", "C", "D"], "A", some "", .medium, some "General"⟩
    resS dbS (by decide) (by decide)

/-! ## Success-shape lemmas for the mutating operations -/

theorem submit_answer_ok_shape {db : DB} {caller quiz_id : Nat} {ans : AnswerSubmit}
    {res : AnswerResult} {db' : DB}
    (h : submit_answer db caller quiz_id ans = .ok (res, db')) :
    ∃ quiz question,
      db.quizzes.find? (fun q => q.id == quiz_id && q.user_id == caller) = some quiz ∧
      quiz.status ≠ .completed ∧
      db.questions.find? (fun q => q.id == ans.question_id) = some question ∧
      db.responses.find? (fun r => r.quiz_id == quiz_id && r.question_id == ans.question_id) = none ∧
      db' = { db with
        responses := db.responses ++
          [⟨quiz_id, question.id, ans.user_answer,
            pyStripLower ans.user_answer == pyStripLower question.correct_answer,
            ans.time_taken_seconds, question.difficulty.value⟩]
        quizzes := db.quizzes.map (submitQuizUpd quiz_id
          (pyStripLower ans.user_answer == pyStripLower question.correct_answer)) } := by
  unfold submit_answer at h
  split at h
  · simp at h
  next quiz hfq =>
    split at h
    next hst => simp at h
    next hst =>
      split at h
      · simp at h
      next question hfquest =>
        split at h
        next hdup => simp at h
        next hdup =>
          rw [Except.ok.injEq, Prod.mk.injEq] at h
          obtain ⟨hres, hdb⟩ := h
          exact ⟨quiz, question, hfq, by simpa using hst, hfquest,
                 by simpa using hdup, hdb.symm⟩

theorem complete_quiz_ok_shape {db : DB} {caller quiz_id : Nat}
    {res : QuizResults} {db' : DB}
    (h : complete_quiz db caller quiz_id = .ok (res, db')) :
    ∃ quiz,
      db.quizzes.find? (fun q => q.id == quiz_id && q.user_id == caller) = some quiz ∧
      quiz.status ≠ .completed ∧
      res = ⟨quiz.id, (calculate_quiz_score db.responses quiz_id).score,
             (calculate_quiz_score db.responses quiz_id).correct_answers,
             (calculate_quiz_score db.responses quiz_id).total_questions,
             some (totalTimeFor db quiz_id),
             (calculate_quiz_score db.responses quiz_id).accuracy,
             (responsesFor db quiz_id).map (fun r => r.difficulty_at_attempt)⟩ ∧
      db' = { db with
        quizzes :=
          db.quizzes.map (completeQuizUpd quiz_id (completedQuizRow db quiz_id quiz)) } := by
  unfold complete_quiz at h
  split at h
  · simp at h
  next quiz hfq =>
    split at h
    next hst => simp at h
    next hst =>
      rw [Except.ok.injEq, Prod.mk.injEq] at h
      obtain ⟨hres, hdb⟩ := h
      exact ⟨quiz, hfq, by simpa using hst, hres.symm, hdb.symm⟩

theorem generate_quiz_ok_shape {db : DB} {caller : Nat} {req : QuizGenerateRequest}
    {cacheRes : Except Unit (Option (List CachedQuestion))}
    {genRes : Except Unit (List Candidate)} {resp : QuizResponse} {db' : DB}
    (h : generate_quiz db caller req cacheRes genRes = .ok (resp, db')) :
    ∃ quiz rows,
      quiz.status = .in_progress ∧
      quiz.id = db.nextQuizId ∧
      db'.contents = db.contents ∧
      db'.questions = db.questions ++ rows ∧
      db'.quizzes = db.quizzes ++ [quiz] ∧
      db'.responses = db.responses ∧
      db'.nextQuizId = db.nextQuizId + 1 ∧
      db'.now = db.now := by
  unfold generate_quiz at h
  split at h
  · simp at h
  next content hfc =>
    split at h
    next c cs hcache =>
      dsimp only at h
      split at h
      · simp at h
      next qrs hbuild =>
        rw [Except.ok.injEq, Prod.mk.injEq] at h
        obtain ⟨hresp, hdb⟩ := h
        refine ⟨newQuizRow db caller content ((c :: cs).take req.num_questions).length
          req.difficulty, [], rfl, rfl, ?_, ?_, ?_, ?_, ?_, ?_⟩ <;> rw [← hdb] <;> simp
    next hcache =>
      unfold generate_from_generator at h
      dsimp only at h
      split at h
      next hempty => simp at h
      next hempty =>
        split at h
        · simp at h
        next rows hrows =>
          rw [Except.ok.injEq, Prod.mk.injEq] at h
          obtain ⟨hresp, hdb⟩ := h
          refine ⟨newQuizRow { db with nextQuestionId := db.nextQuestionId + rows.length }
            caller content rows.length req.difficulty, rows,
            rfl, rfl, ?_, ?_, ?_, ?_, ?_, ?_⟩ <;> rw [← hdb]

/-! ## Invariant preservation -/

theorem submitQuizUpd_id (quiz_id : Nat) (b : Bool) (a : Quiz) :
    (submitQuizUpd quiz_id b a).id = a.id := by
  unfold submitQuizUpd
  by_cases h1 : a.id == quiz_id
  · by_cases h2 : b <;> simp [h1, h2]
  · simp [h1]

theorem submitQuizUpd_status (quiz_id : Nat) (b : Bool) (a : Quiz) :
    (submitQuizUpd quiz_id b a).status = a.status := by
  unfold submitQuizUpd
  by_cases h1 : a.id == quiz_id
  · by_cases h2 : b <;> simp [h1, h2]
  · simp [h1]

theorem submitQuizUpd_fields (quiz_id : Nat) (b : Bool) (a : Quiz) :
    (submitQuizUpd quiz_id b a).id = a.id ∧
    (submitQuizUpd quiz_id b a).content_id = a.content_id ∧
    (submitQuizUpd quiz_id b a).total_questions = a.total_questions := by
  unfold submitQuizUpd
  by_cases h1 : a.id == quiz_id
  · by_cases h2 : b <;> simp [h1, h2]
  · simp [h1]

theorem completeQuizUpd_id {quizC : Quiz} {quiz_id : Nat} (hc : quizC.id = quiz_id)
    (a : Quiz) : (completeQuizUpd quiz_id quizC a).id = a.id := by
  unfold completeQuizUpd
  by_cases h1 : a.id == quiz_id
  · rw [if_pos h1, hc]
    exact (beq_iff_eq.1 h1).symm
  · rw [if_neg h1]

theorem completeQuizUpd_cases (quiz_id : Nat) (quizC a : Quiz) :
    completeQuizUpd quiz_id quizC a = quizC ∨ completeQuizUpd quiz_id quizC a = a := by
  unfold completeQuizUpd
  split
  · exact Or.inl rfl
  · exact Or.inr rfl

theorem completedQuizRow_id (db : DB) (quiz_id : Nat) (quiz : Quiz) :
    (completedQuizRow db quiz_id quiz).id = quiz.id := rfl

theorem completedQuizRow_status (db : DB) (quiz_id : Nat) (quiz : Quiz) :
    (completedQuizRow db quiz_id quiz).status = .completed := rfl

theorem inv_step {db db' : DB} (hi : Inv db) (hs : AnyStep db db') : Inv db' := by
  cases hs with
  | gen caller req cacheRes genRes resp h =>
    obtain ⟨quiz, rows, hstat, hid, hc, hq, hz, hr, hnq, hnow⟩ := generate_quiz_ok_shape h
    constructor
    · rw [hr]; exact hi.pairsUnique
    · rw [hr, hq]
      intro r hrmem
      obtain ⟨q, hqm, hqid⟩ := hi.responseQuestionExists r hrmem
      exact ⟨q, List.mem_append_left _ hqm, hqid⟩
    · rw [hz]
      intro qz hqz
      rcases List.mem_append.1 hqz with hql | hqr
      · exact hi.noAbandoned qz hql
      · obtain rfl : qz = quiz := List.mem_singleton.1 hqr
        rw [hstat]; simp
    · rw [hz, List.map_append]
      refine List.Nodup.append hi.quizIdsNodup (by simp) ?_
      intro a ha hb
      simp only [List.map_cons, List.map_nil, List.mem_singleton] at hb
      obtain ⟨qz, hqzm, rfl⟩ := List.mem_map.1 ha
      have h3 := hi.quizIdsLt qz hqzm
      rw [hb, hid] at h3
      omega
    · rw [hz, hnq]
      intro qz hqz
      rcases List.mem_append.1 hqz with hql | hqr
      · exact Nat.lt_succ_of_lt (hi.quizIdsLt qz hql)
      · obtain rfl : qz = quiz := List.mem_singleton.1 hqr
        rw [hid]; omega
  | submit caller quiz_id ans res h =>
    obtain ⟨quiz, question, hfq, hst, hfquest, hdup, hdb⟩ := submit_answer_ok_shape h
    have hqid : question.id = ans.question_id := by
      have hp := List.find?_some hfquest; simpa using hp
    subst hdb
    constructor
    · show (db.responses ++ [_]).Pairwise _
      rw [List.pairwise_append]
      refine ⟨hi.pairsUnique, by simp, ?_⟩
      intro a ha b hb
      obtain rfl : b = _ := List.mem_singleton.1 hb
      rintro ⟨h1, h2⟩
      have hnone := List.find?_eq_none.1 hdup a ha
      simp only [Bool.and_eq_true, beq_iff_eq, not_and] at hnone
      simp only at h1 h2
      exact hnone h1 (h2.trans hqid)
    · intro r hrmem
      rcases List.mem_append.1 hrmem with hrl | hrr
      · exact hi.responseQuestionExists r hrl
      · obtain rfl : r = _ := List.mem_singleton.1 hrr
        exact ⟨question, List.mem_of_find?_eq_some hfquest, rfl⟩
    · intro qz hqz
      obtain ⟨a, ha, rfl⟩ := List.mem_map.1 hqz
      rw [submitQuizUpd_status]
      exact hi.noAbandoned a ha
    · show ((db.quizzes.map (submitQuizUpd quiz_id
        (pyStripLower ans.user_answer == pyStripLower question.correct_answer))).map
          (fun q => q.id)).Nodup
      rw [List.map_map]
      have hids : db.quizzes.map ((fun q : Quiz => q.id) ∘ submitQuizUpd quiz_id
            (pyStripLower ans.user_answer == pyStripLower question.correct_answer))
          = db.quizzes.map (fun q : Quiz => q.id) :=
        List.map_congr_left (fun a _ => submitQuizUpd_id quiz_id _ a)
      rw [hids]
      exact hi.quizIdsNodup
    · intro qz hqz
      obtain ⟨a, ha, rfl⟩ := List.mem_map.1 hqz
      rw [submitQuizUpd_id]
      exact hi.quizIdsLt a ha
  | complete caller quiz_id res h =>
    obtain ⟨quiz, hfq, hst, hres, hdb⟩ := complete_quiz_ok_shape h
    have hqzid : quiz.id = quiz_id := by
      have hp := List.find?_some hfq
      simp only [Bool.and_eq_true, beq_iff_eq] at hp
      exact hp.1
    have hcid : (completedQuizRow db quiz_id quiz).id = quiz_id := by
      rw [completedQuizRow_id, hqzid]
    subst hdb
    constructor
    · exact hi.pairsUnique
    · exact hi.responseQuestionExists
    · intro qz hqz
      obtain ⟨a, ha, rfl⟩ := List.mem_map.1 hqz
      rcases completeQuizUpd_cases quiz_id (completedQuizRow db quiz_id quiz) a with hc | hc
      · rw [hc, completedQuizRow_status]
        simp
      · rw [hc]
        exact hi.noAbandoned a ha
    · show ((db.quizzes.map (completeQuizUpd quiz_id
        (completedQuizRow db quiz_id quiz))).map (fun q => q.id)).Nodup
      rw [List.map_map]
      have hids : db.quizzes.map ((fun q : Quiz => q.id) ∘ completeQuizUpd quiz_id
            (completedQuizRow db quiz_id quiz))
          = db.quizzes.map (fun q : Quiz => q.id) :=
        List.map_congr_left (fun a _ => completeQuizUpd_id hcid a)
      rw [hids]
      exact hi.quizIdsNodup
    · intro qz hqz
      obtain ⟨a, ha, rfl⟩ := List.mem_map.1 hqz
      rw [completeQuizUpd_id hcid]
      exact hi.quizIdsLt a ha

theorem reachable_inv {db : DB} (h : Reachable db) : Inv db := by
  induction h with
  | base db hq hr => constructor <;> simp [hq, hr]
  | step db db' hr hs ih => exact inv_step ih hs

/-! ## C4: duplicate answers -/

/-- C4: in every reachable store, at most one Response exists per
(session, question) pair, and a second `submit_answer` by the session's
owner for an already-answered (session, question) pair always fails with
the Conflict kind.  An error result produces no successor store, so the
session's `correct_answers` and all other state are left unchanged. -/
theorem C4_duplicate_answer_conflict (db : DB) (hr : Reachable db) :
    db.responses.Pairwise (fun a b =>
      ¬(a.quiz_id = b.quiz_id ∧ a.question_id = b.question_id)) ∧
    (∀ qz ∈ db.quizzes, ∀ r ∈ db.responses, r.quiz_id = qz.id →
      ∀ ua t, failsWithConflict (submit_answer db qz.user_id qz.id ⟨r.question_id, ua, t⟩) = true) := by
  have hi := reachable_inv hr
  refine ⟨hi.pairsUnique, ?_⟩
  intro qz hqz r hrm hrq ua t
  have hfqSome : (db.quizzes.find? (fun q => q.id == qz.id && q.user_id == qz.user_id)).isSome := by
    rw [List.find?_isSome]
    exact ⟨qz, hqz, by simp⟩
  obtain ⟨q0, hfq⟩ := Option.isSome_iff_exists.1 hfqSome
  unfold submit_answer
  rw [hfq]
  dsimp only
  by_cases hst : q0.status == QuizStatus.completed
  · rw [if_pos hst]
    rfl
  · rw [if_neg hst]
    obtain ⟨qq, hqqm, hqqid⟩ := hi.responseQuestionExists r hrm
    have hfquestSome : (db.questions.find? (fun q => q.id == r.question_id)).isSome := by
      rw [List.find?_isSome]
      exact ⟨qq, hqqm, by simp [hqqid]⟩
    obtain ⟨qfound, hfquest⟩ := Option.isSome_iff_exists.1 hfquestSome
    rw [hfquest]
    dsimp only
    have hdupSome : (db.responses.find? (fun x =>
        x.quiz_id == qz.id && x.question_id == r.question_id)).isSome := by
      rw [List.find?_isSome]
      exact ⟨r, hrm, by simp [hrq]⟩
    rw [if_pos hdupSome]
    rfl

/-- C4 witness: in the reachable store `dbS` (one quiz, question 1
already answered), re-answering question 1 is rejected with Conflict. -/
theorem C4_duplicate_answer_conflict_witness :
    dbS.responses.Pairwise (fun a b =>
      ¬(a.quiz_id = b.quiz_id ∧ a.question_id = b.question_id)) ∧
    (∀ qz ∈ dbS.quizzes, ∀ r ∈ dbS.responses, r.quiz_id = qz.id →
      ∀ ua t, failsWithConflict (submit_answer dbS qz.user_id qz.id ⟨r.question_id, ua, t⟩) = true) :=
  C4_duplicate_answer_conflict dbS
    (Reachable.step db1 dbS
      (Reachable.step db0 db1 (Reachable.base db0 rfl rfl)
        (AnyStep.gen 1 req1 (.ok none) (.ok cands1) resp1 (by decide)))
      (AnyStep.submit 1 1 ⟨1, "A", none⟩ resS (by decide)))

/-! ## C5: monotone status transitions -/

/-- C5: in every reachable store, one successful API step relates each
existing session row to its successor by: same id, a status change that
is either none or InProgress to a terminal state, and no change at all
to a Completed row; responses of a Completed session are never touched
(no Response is created once the session is Completed); newly created
sessions start InProgress; and both `submit_answer` and `complete_quiz`
on a Completed session fail with Conflict — in particular a second
completion produces no successor store, so the stored score is not
recomputed. -/
theorem C5_status_monotone (db db' : DB) (hr : Reachable db) (hs : AnyStep db db') :
    (List.Forall₂ (fun q q' => q.id = q'.id ∧ statusStep q.status q'.status ∧
        (q.status = .completed → q' = q))
        db.quizzes (db'.quizzes.take db.quizzes.length) ∧
      (∀ qz ∈ db.quizzes, qz.status = .completed →
        responsesFor db' qz.id = responsesFor db qz.id) ∧
      (∀ qz ∈ db'.quizzes.drop db.quizzes.length, qz.status = .in_progress)) ∧
    (∀ qz ∈ db.quizzes, qz.status = .completed →
      (∀ ans, failsWithConflict (submit_answer db qz.user_id qz.id ans) = true) ∧
      failsWithConflict (complete_quiz db qz.user_id qz.id) = true) := by
  have hi := reachable_inv hr
  constructor
  · cases hs with
    | gen caller req cacheRes genRes resp h =>
      obtain ⟨quiz, rows, hstat, hid, hc, hq, hz, hrsp, hnq, hnow⟩ := generate_quiz_ok_shape h
      refine ⟨?_, ?_, ?_⟩
      · rw [hz, List.take_left]
        exact List.forall₂_same.2 (fun a _ => ⟨rfl, Or.inl rfl, fun _ => rfl⟩)
      · intro qz hqz hcomp
        unfold responsesFor
        rw [hrsp]
      · rw [hz, List.drop_left]
        intro qz hqz
        obtain rfl : qz = quiz := List.mem_singleton.1 hqz
        exact hstat
    | submit caller quiz_id ans res h =>
      obtain ⟨quiz, question, hfq, hst, hfquest, hdup, hdb⟩ := submit_answer_ok_shape h
      have hqm := List.mem_of_find?_eq_some hfq
      have hqp := List.find?_some hfq
      simp only [Bool.and_eq_true, beq_iff_eq] at hqp
      subst hdb
      refine ⟨?_, ?_, ?_⟩
      · show List.Forall₂ _ db.quizzes ((db.quizzes.map (submitQuizUpd quiz_id
          (pyStripLower ans.user_answer == pyStripLower question.correct_answer))).take
            db.quizzes.length)
        have hlen : (db.quizzes.map (submitQuizUpd quiz_id
            (pyStripLower ans.user_answer == pyStripLower question.correct_answer))).take
              db.quizzes.length
            = db.quizzes.map (submitQuizUpd quiz_id
                (pyStripLower ans.user_answer == pyStripLower question.correct_answer)) := by
          rw [← List.length_map db.quizzes (submitQuizUpd quiz_id
            (pyStripLower ans.user_answer == pyStripLower question.correct_answer))]
          exact List.take_length _
        rw [hlen]
        refine List.forall₂_map_right_iff.2 (List.forall₂_same.2 ?_)
        intro a ha
        refine ⟨(submitQuizUpd_id _ _ a).symm, Or.inl (submitQuizUpd_status _ _ a).symm, ?_⟩
        intro hcomp
        have hne : ¬ (a.id == quiz_id) = true := by
          intro hbeq
          rw [beq_iff_eq] at hbeq
          have hida : a.id = quiz.id := by rw [hbeq, ← hqp.1]
          have heq : a = quiz := List.inj_on_of_nodup_map hi.quizIdsNodup ha hqm hida
          exact hst (by rw [← heq]; exact hcomp)
        unfold submitQuizUpd
        rw [if_neg hne]
      · intro qz hqz hcomp
        have hqzne : ¬ quiz_id = qz.id := by
          intro he
          have heq : qz = quiz :=
            List.inj_on_of_nodup_map hi.quizIdsNodup hqz hqm (by rw [← he, ← hqp.1])
          exact hst (by rw [← heq]; exact hcomp)
        show List.filter (fun x => x.quiz_id == qz.id) (db.responses ++ [_])
          = List.filter (fun x => x.quiz_id == qz.id) db.responses
        rw [List.filter_append]
        simp [hqzne]
      · intro qz hqz
        have hempty : (db.quizzes.map (submitQuizUpd quiz_id
            (pyStripLower ans.user_answer == pyStripLower question.correct_answer))).drop
              db.quizzes.length = [] := by
          rw [← List.length_map db.quizzes (submitQuizUpd quiz_id
            (pyStripLower ans.user_answer == pyStripLower question.correct_answer))]
          exact List.drop_length _
        rw [show (({ db with
          responses := db.responses ++
            [⟨quiz_id, question.id, ans.user_answer,
              pyStripLower ans.user_answer == pyStripLower question.correct_answer,
              ans.time_taken_seconds, question.difficulty.value⟩]
          quizzes := db.quizzes.map (submitQuizUpd quiz_id
            (pyStripLower ans.user_answer == pyStripLower question.correct_answer)) } : DB).quizzes)
          = db.quizzes.map (submitQuizUpd quiz_id
              (pyStripLower ans.user_answer == pyStripLower question.correct_answer)) from rfl,
          hempty] at hqz
        simp at hqz
    | complete caller quiz_id res h =>
      obtain ⟨quiz, hfq, hst, hres, hdb⟩ := complete_quiz_ok_shape h
      have hqm := List.mem_of_find?_eq_some hfq
      have hqp := List.find?_some hfq
      simp only [Bool.and_eq_true, beq_iff_eq] at hqp
      have hcid : (completedQuizRow db quiz_id quiz).id = quiz_id := by
        rw [completedQuizRow_id, hqp.1]
      subst hdb
      refine ⟨?_, ?_, ?_⟩
      · show List.Forall₂ _ db.quizzes
          ((db.quizzes.map (completeQuizUpd quiz_id (completedQuizRow db quiz_id quiz))).take
            db.quizzes.length)
        have hlen : (db.quizzes.map (completeQuizUpd quiz_id
              (completedQuizRow db quiz_id quiz))).take db.quizzes.length
            = db.quizzes.map (completeQuizUpd quiz_id (completedQuizRow db quiz_id quiz)) := by
          rw [← List.length_map db.quizzes
            (completeQuizUpd quiz_id (completedQuizRow db quiz_id quiz))]
          exact List.take_length _
        rw [hlen]
        refine List.forall₂_map_right_iff.2 (List.forall₂_same.2 ?_)
        intro a ha
        have hnotc : a.id = quiz_id → a = quiz := by
          intro hbeq
          exact List.inj_on_of_nodup_map hi.quizIdsNodup ha hqm (by rw [hbeq, ← hqp.1])
        refine ⟨(completeQuizUpd_id hcid a).symm, ?_, ?_⟩
        · unfold completeQuizUpd
          by_cases hb : (a.id == quiz_id) = true
          · rw [if_pos hb]
            have heq : a = quiz := hnotc (beq_iff_eq.1 hb)
            have hip : a.status = .in_progress := by
              cases hstat : a.status with
              | in_progress => rfl
              | completed => exact absurd (by rw [← heq]; exact hstat) hst
              | abandoned => exact absurd hstat (hi.noAbandoned a ha)
            rw [completedQuizRow_status, hip]
            exact Or.inr ⟨rfl, Or.inl rfl⟩
          · rw [if_neg hb]
            exact Or.inl rfl
        · intro hcomp
          unfold completeQuizUpd
          rw [if_neg ?hne2]
          case hne2 =>
            intro hbeq
            have heq : a = quiz := hnotc (beq_iff_eq.1 hbeq)
            exact hst (by rw [← heq]; exact hcomp)
      · intro qz hqz hcomp
        rfl
      · intro qz hqz
        have hempty : (db.quizzes.map (completeQuizUpd quiz_id
            (completedQuizRow db quiz_id quiz))).drop db.quizzes.length = [] := by
          rw [← List.length_map db.quizzes
            (completeQuizUpd quiz_id (completedQuizRow db quiz_id quiz))]
          exact List.drop_length _
        rw [show (({ db with
          quizzes :=
            db.quizzes.map (completeQuizUpd quiz_id (completedQuizRow db quiz_id quiz)) } : DB).quizzes)
          = db.quizzes.map (completeQuizUpd quiz_id (completedQuizRow db quiz_id quiz)) from rfl,
          hempty] at hqz
        simp at hqz
  · intro qz hqz hcomp
    have hfqSome : (db.quizzes.find? (fun q => q.id == qz.id && q.user_id == qz.user_id)).isSome := by
      rw [List.find?_isSome]
      exact ⟨qz, hqz, by simp⟩
    obtain ⟨q0, hfq⟩ := Option.isSome_iff_exists.1 hfqSome
    have hq0m := List.mem_of_find?_eq_some hfq
    have hq0p := List.find?_some hfq
    simp only [Bool.and_eq_true, beq_iff_eq] at hq0p
    obtain rfl : q0 = qz := List.inj_on_of_nodup_map hi.quizIdsNodup hq0m hqz hq0p.1
    constructor
    · intro ans
      unfold submit_answer
      rw [hfq]
      dsimp only
      rw [if_pos (beq_iff_eq.2 hcomp)]
      rfl
    · unfold complete_quiz
      rw [hfq]
      dsimp only
      rw [if_pos (beq_iff_eq.2 hcomp)]
      rfl

/-- C5 witness: `db2c` (quiz 1 Completed) stepping by the creation of
quiz 2. -/
theorem C5_status_monotone_witness :
    (List.Forall₂ (fun q q' => q.id = q'.id ∧ statusStep q.status q'.status ∧
        (q.status = .completed → q' = q))
        db2c.quizzes (db3g.quizzes.take db2c.quizzes.length) ∧
      (∀ qz ∈ db2c.quizzes, qz.status = .completed →
        responsesFor db3g qz.id = responsesFor db2c qz.id) ∧
      (∀ qz ∈ db3g.quizzes.drop db2c.quizzes.length, qz.status = .in_progress)) ∧
    (∀ qz ∈ db2c.quizzes, qz.status = .completed →
      (∀ ans, failsWithConflict (submit_answer db2c qz.user_id qz.id ans) = true) ∧
      failsWithConflict (complete_quiz db2c qz.user_id qz.id) = true) :=
  C5_status_monotone db2c db3g
    (Reachable.step db1 db2c
      (Reachable.step db0 db1 (Reachable.base db0 rfl rfl)
        (AnyStep.gen 1 req1 (.ok none) (.ok cands1) resp1 (by decide)))
      (AnyStep.complete 1 1 res2c (by decide)))
    (AnyStep.gen 1 req2 (.ok none) (.ok cands2) resp3 (by decide))

/-! ## C2: the `correct_answers ≤ total_questions` bound -/

/-- C2: evaluation of the code at the failing input.  `submit_answer`
never checks that the answered question belongs to the session's
question set, so after creating quiz 1 with `total_questions = 5`
(questions 1-5) and quiz 2 (questions 6-10) on the same content, six
correct submissions on quiz 1 — including question 6 — leave quiz 1
with `correct_answers = 6 > 5 = total_questions`. -/
theorem C2_correct_answers_exceed_total :
    (runC2scenario.map (fun db =>
        db.quizzes.map (fun q => (q.id, q.correct_answers, q.total_questions))))
      = .ok [(1, 6, 5), (2, 0, 5)] ∧ ¬ (6 ≤ 5) := by
  constructor
  · decide
  · decide

/-! ## C3: the question set of a session -/

/-- C3 counterexample: quiz 2 is materialized from the freshly
generated hard questions 6-10 (as its creation response shows), yet
`get_quiz` re-derives its list as the first `total_questions = 5`
questions of content 1 — the medium questions 1-5 — so fetching the
session does not return the originally chosen questions. -/
theorem C3_counterexample :
    runC3scenario = .ok ([6, 7, 8, 9, 10], [1, 2, 3, 4, 5]) ∧
    ([6, 7, 8, 9, 10] : List Nat) ≠ [1, 2, 3, 4, 5] := by
  constructor
  · decide
  · decide

/-- C3 (amended): a session stores no question identities — only its
content reference and the count `total_questions` fixed at creation.
No later operation (answer submission, adaptive advisory, completion)
alters a session's id, content reference or question count; fetching
the session re-derives the list as the first `total_questions`
questions of the session's content at fetch time, which need not be the
originally materialized list. -/
theorem C3_amended_fixed_count (db db' : DB) (hr : Reachable db) (hs : AnyStep db db') :
    (db'.quizzes.take db.quizzes.length).map (fun q => (q.id, q.content_id, q.total_questions))
      = db.quizzes.map (fun q => (q.id, q.content_id, q.total_questions)) := by
  have hi := reachable_inv hr
  cases hs with
  | gen caller req cacheRes genRes resp h =>
    obtain ⟨quiz, rows, hstat, hid, hc, hq, hz, hrsp, hnq, hnow⟩ := generate_quiz_ok_shape h
    rw [hz, List.take_left]
  | submit caller quiz_id ans res h =>
    obtain ⟨quiz, question, hfq, hst, hfquest, hdup, hdb⟩ := submit_answer_ok_shape h
    subst hdb
    show ((db.quizzes.map (submitQuizUpd quiz_id
      (pyStripLower ans.user_answer == pyStripLower question.correct_answer))).take
        db.quizzes.length).map _ = _
    rw [← List.length_map db.quizzes (submitQuizUpd quiz_id
      (pyStripLower ans.user_answer == pyStripLower question.correct_answer)),
      List.take_length, List.map_map]
    refine List.map_congr_left ?_
    intro a ha
    obtain ⟨h1, h2, h3⟩ := submitQuizUpd_fields quiz_id
      (pyStripLower ans.user_answer == pyStripLower question.correct_answer) a
    show ((submitQuizUpd quiz_id _ a).id, (submitQuizUpd quiz_id _ a).content_id,
      (submitQuizUpd quiz_id _ a).total_questions) = (a.id, a.content_id, a.total_questions)
    rw [h1, h2, h3]
  | complete caller quiz_id res h =>
    obtain ⟨quiz, hfq, hst, hres, hdb⟩ := complete_quiz_ok_shape h
    have hqm := List.mem_of_find?_eq_some hfq
    have hqp := List.find?_some hfq
    simp only [Bool.and_eq_true, beq_iff_eq] at hqp
    subst hdb
    show ((db.quizzes.map (completeQuizUpd quiz_id (completedQuizRow db quiz_id quiz))).take
        db.quizzes.length).map _ = _
    rw [← List.length_map db.quizzes (completeQuizUpd quiz_id (completedQuizRow db quiz_id quiz)),
      List.take_length, List.map_map]
    refine List.map_congr_left ?_
    intro a ha
    show ((completeQuizUpd quiz_id _ a).id, (completeQuizUpd quiz_id _ a).content_id,
      (completeQuizUpd quiz_id _ a).total_questions) = (a.id, a.content_id, a.total_questions)
    unfold completeQuizUpd
    by_cases hb : (a.id == quiz_id) = true
    · have heq : a = quiz :=
        List.inj_on_of_nodup_map hi.quizIdsNodup ha hqm (by rw [beq_iff_eq.1 hb, ← hqp.1])
      rw [if_pos hb]
      show (quiz.id, quiz.content_id, quiz.total_questions) = (a.id, a.content_id, a.total_questions)
      rw [heq]
    · rw [if_neg hb]

/-- C3 amended witness: the submission step from `db1` to `dbS`. -/
theorem C3_amended_fixed_count_witness :
    (dbS.quizzes.take db1.quizzes.length).map (fun q => (q.id, q.content_id, q.total_questions))
      = db1.quizzes.map (fun q => (q.id, q.content_id, q.total_questions)) :=
  C3_amended_fixed_count db1 dbS
    (Reachable.step db0 db1 (Reachable.base db0 rfl rfl)
      (AnyStep.gen 1 req1 (.ok none) (.ok cands1) resp1 (by decide)))
    (AnyStep.submit 1 1 ⟨1, "A", none⟩ resS (by decide))

/-! ## C6: completion aggregates -/

/-- The generator-filtered time sum of the code equals the spec's
`sum(time_taken_seconds or 0)`: skipping `None` and `0` does not change
an integer sum. -/
theorem truthy_time_sum_eq_getD (l : List UserResponse) :
    (((l.filterMap (fun r => r.time_taken_seconds)).filter (fun t => t != 0)).sum : Int)
      = (l.map (fun r => r.time_taken_seconds.getD 0)).sum := by
  induction l with
  | nil => rfl
  | cons r rs ih =>
    cases hrt : r.time_taken_seconds with
    | none => simp [List.filterMap_cons, hrt, ih]
    | some n =>
      by_cases hn : n = 0
      · subst hn
        simp [List.filterMap_cons, hrt, ih]
      · simp [List.filterMap_cons, hrt, List.filter_cons, hn, ih]

theorem totalTimeFor_eq_getD (db : DB) (quiz_id : Nat) :
    totalTimeFor db quiz_id
      = ((responsesFor db quiz_id).map (fun r => r.time_taken_seconds.getD 0)).sum :=
  truthy_time_sum_eq_getD (responsesFor db quiz_id)

/-- `calculate_quiz_score` in the claim's vocabulary: counts, length,
and `100 * correct / total` rounded to two decimals (0 when there are
no responses). -/
theorem calculate_quiz_score_spec (responses : List UserResponse) (quiz_id : Nat) :
    calculate_quiz_score responses quiz_id =
      ⟨(if (responses.filter (fun r => r.quiz_id == quiz_id)).length = 0 then 0
        else pyRound2 (100 * ((responses.filter (fun r => r.quiz_id == quiz_id)).countP
          (fun r => r.is_correct) : ℚ)
          / ((responses.filter (fun r => r.quiz_id == quiz_id)).length : ℚ))),
       (if (responses.filter (fun r => r.quiz_id == quiz_id)).length = 0 then 0
        else pyRound2 (100 * ((responses.filter (fun r => r.quiz_id == quiz_id)).countP
          (fun r => r.is_correct) : ℚ)
          / ((responses.filter (fun r => r.quiz_id == quiz_id)).length : ℚ))),
       (responses.filter (fun r => r.quiz_id == quiz_id)).countP (fun r => r.is_correct),
       (responses.filter (fun r => r.quiz_id == quiz_id)).length⟩ := by
  unfold calculate_quiz_score
  by_cases he : (responses.filter (fun r => r.quiz_id == quiz_id)).isEmpty
  · rw [if_pos he]
    obtain hnil := List.isEmpty_iff.1 he
    rw [hnil]
    simp
  · rw [if_neg he]
    have hlen : ¬ (responses.filter (fun r => r.quiz_id == quiz_id)).length = 0 := by
      intro h0
      exact he (by rw [List.isEmpty_iff, ← List.length_eq_zero]; exact h0)
    rw [if_neg hlen]
    have harith : (((responses.filter (fun r => r.quiz_id == quiz_id)).countP
          (fun r => r.is_correct) : ℚ)
          / ((responses.filter (fun r => r.quiz_id == quiz_id)).length : ℚ)) * 100
        = 100 * ((responses.filter (fun r => r.quiz_id == quiz_id)).countP
          (fun r => r.is_correct) : ℚ)
          / ((responses.filter (fun r => r.quiz_id == quiz_id)).length : ℚ) := by
      ring
    dsimp only
    rw [harith]

unseal Rat.add Rat.mul Rat.inv Rat.sub in
/-- C6 counterexample: three answers (one correct) then completion: the
returned (and stored) score and accuracy are `33.33`, the rounding of
`100 * 1 / 3` to two decimals — not `100 * 1 / 3` itself as the claim
states. -/
theorem C6_counterexample :
    (runC6scenario.map (fun r => (r.score, r.accuracy, r.correct_answers, r.total_questions)))
      = .ok (3333/100, 3333/100, 1, 3) ∧
    (3333/100 : ℚ) ≠ 100 * 1 / 3 := by
  constructor
  · decide
  · decide

/-- C6 (amended): completing an owned, not-yet-Completed session loads
its responses and returns `correct = count(is_correct)`,
`total = count(all)`, `accuracy = 100 * correct / total` rounded to two
decimals (0 when `total = 0`), `score = accuracy`,
`total_time_seconds = sum(time_taken_seconds or 0)`, and the
`difficulty_progression` of `difficulty_at_attempt` in submission
order; the stored row (`completedQuizRow`) receives
`status = Completed`, the same score, `correct_answers = correct`,
`completed_at = now` and the same total time. -/
theorem C6_complete_aggregates (db : DB) (caller quiz_id : Nat) (quiz : Quiz)
    (hfq : db.quizzes.find? (fun q => q.id == quiz_id && q.user_id == caller) = some quiz)
    (hst : quiz.status ≠ .completed) :
    complete_quiz db caller quiz_id = .ok
      (⟨quiz.id,
        (if (responsesFor db quiz_id).length = 0 then 0
         else pyRound2 (100 * ((responsesFor db quiz_id).countP (fun r => r.is_correct) : ℚ)
           / ((responsesFor db quiz_id).length : ℚ))),
        (responsesFor db quiz_id).countP (fun r => r.is_correct),
        (responsesFor db quiz_id).length,
        some (((responsesFor db quiz_id).map (fun r => r.time_taken_seconds.getD 0)).sum),
        (if (responsesFor db quiz_id).length = 0 then 0
         else pyRound2 (100 * ((responsesFor db quiz_id).countP (fun r => r.is_correct) : ℚ)
           / ((responsesFor db quiz_id).length : ℚ))),
        (responsesFor db quiz_id).map (fun r => r.difficulty_at_attempt)⟩,
       { db with
         quizzes :=
           db.quizzes.map (completeQuizUpd quiz_id (completedQuizRow db quiz_id quiz)) }) := by
  unfold complete_quiz
  rw [hfq]
  dsimp only
  rw [if_neg (fun hb => hst (beq_iff_eq.1 hb))]
  rw [calculate_quiz_score_spec, totalTimeFor_eq_getD]
  dsimp only [responsesFor]

/-- C6 amended witness: completing quiz 1 of `dbS` (one recorded
answer). -/
theorem C6_complete_aggregates_witness :
    complete_quiz dbS 1 1 = .ok
      (⟨quizS.id,
        (if (responsesFor dbS 1).length = 0 then 0
         else pyRound2 (100 * ((responsesFor dbS 1).countP (fun r => r.is_correct) : ℚ)
           / ((responsesFor dbS 1).length : ℚ))),
        (responsesFor dbS 1).countP (fun r => r.is_correct),
        (responsesFor dbS 1).length,
        some (((responsesFor dbS 1).map (fun r => r.time_taken_seconds.getD 0)).sum),
        (if (responsesFor dbS 1).length = 0 then 0
         else pyRound2 (100 * ((responsesFor dbS 1).countP (fun r => r.is_correct) : ℚ)
           / ((responsesFor dbS 1).length : ℚ))),
        (responsesFor dbS 1).map (fun r => r.difficulty_at_attempt)⟩,
       { dbS with
         quizzes := dbS.quizzes.map (completeQuizUpd 1 (completedQuizRow dbS 1 quizS)) }) :=
  C6_complete_aggregates dbS 1 1 quizS (by decide) (by decide)

/-! ## C7: the analytics average score -/

/-- Dropping null and zero scores from the numerator does not change the
sum. -/
theorem truthy_score_sum_eq_getD (l : List Quiz) :
    (((l.filterMap (fun q => q.score)).filter (fun s => s != 0)).sum : ℚ)
      = (l.map (fun q => q.score.getD 0)).sum := by
  induction l with
  | nil => rfl
  | cons q qs ih =>
    cases hs : q.score with
    | none => simp [List.filterMap_cons, hs, ih]
    | some s =>
      by_cases h0 : s = 0
      · subst h0
        simp [List.filterMap_cons, hs, ih]
      · simp [List.filterMap_cons, hs, List.filter_cons, h0, ih]

theorem filterMap_score_of_all_isSome (l : List Quiz)
    (h : ∀ q ∈ l, q.score.isSome) :
    l.filterMap (fun q => q.score) = l.map (fun q => q.score.getD 0) := by
  induction l with
  | nil => rfl
  | cons q qs ih =>
    cases hs : q.score with
    | none =>
      have hq := h q (by simp)
      rw [hs] at hq
      simp at hq
    | some s =>
      simp only [List.filterMap_cons, hs, List.map_cons]
      rw [ih (fun x hx => h x (by simp [hx]))]
      simp [hs]

unseal Rat.add Rat.mul Rat.inv Rat.sub in
/-- C7 counterexample: in store A, user 1 has two completed sessions
with scores 80 and NULL: the code divides the non-null sum by the total
number of completed sessions and returns 40, while the claimed mean over
the non-null scores is 80.  In store B the scores are 66.67, 0 and 0
(all non-null): the code returns `round(66.67/3, 2) = 22.22`, while the
claimed arithmetic mean is `66.67/3 = 22.223…`. -/
theorem C7_counterexample :
    (get_analytics_overview_scalars exDbA 1 (.ok none)).avg_score = 40 ∧
    specMeanNonNull exDbA 1 = 80 ∧ (40 : ℚ) ≠ 80 ∧
    (get_analytics_overview_scalars exDbB 1 (.ok none)).avg_score = 1111/50 ∧
    specMeanNonNull exDbB 1 = 6667/300 ∧ (1111/50 : ℚ) ≠ 6667/300 := by
  refine ⟨by decide, by decide, by decide, by decide, by decide, by decide⟩

/-- C7 (amended): on a cache miss for a user with at least one Completed
session, `avg_score` is the sum of the session scores (a null or zero
score contributing 0) divided by the number of ALL completed sessions —
not only those with a non-null score — rounded to two decimals.  When
every completed session carries a non-null score (as in every store this
API produces, since completion always sets a score), this equals the
rounded arithmetic mean over the non-null scores. -/
theorem C7_avg_score (db : DB) (userId : Nat)
    (hne : db.quizzes.filter (fun q => q.user_id == userId && q.status == .completed) ≠ []) :
    (get_analytics_overview_scalars db userId (.ok none)).avg_score
      = pyRound2 (((db.quizzes.filter (fun q =>
            q.user_id == userId && q.status == .completed)).map
            (fun q => q.score.getD 0)).sum
          / ((db.quizzes.filter (fun q =>
            q.user_id == userId && q.status == .completed)).length : ℚ)) ∧
    ((∀ q ∈ db.quizzes.filter (fun q => q.user_id == userId && q.status == .completed),
        q.score.isSome) →
      (get_analytics_overview_scalars db userId (.ok none)).avg_score
        = pyRound2 (specMeanNonNull db userId)) := by
  have hget : get_analytics_overview_scalars db userId (.ok none)
      = analytics_overview_scalars db userId := rfl
  have hlen : ¬ ((db.quizzes.filter (fun q =>
      q.user_id == userId && q.status == .completed)).length == 0) = true := by
    intro hb
    rw [beq_iff_eq, List.length_eq_zero] at hb
    exact hne hb
  have hmain : (analytics_overview_scalars db userId).avg_score
      = pyRound2 (((db.quizzes.filter (fun q =>
            q.user_id == userId && q.status == .completed)).map
            (fun q => q.score.getD 0)).sum
          / ((db.quizzes.filter (fun q =>
            q.user_id == userId && q.status == .completed)).length : ℚ)) := by
    unfold analytics_overview_scalars
    rw [if_neg hlen]
    dsimp only
    rw [truthy_score_sum_eq_getD]
  constructor
  · rw [hget, hmain]
  · intro hall
    rw [hget, hmain]
    unfold specMeanNonNull
    dsimp only
    rw [filterMap_score_of_all_isSome _ hall, List.length_map]

/-- C7 amended witness: store B (three completed sessions, all scores
non-null). -/
theorem C7_avg_score_witness :
    (get_analytics_overview_scalars exDbB 1 (.ok none)).avg_score
      = pyRound2 (((exDbB.quizzes.filter (fun q =>
            q.user_id == 1 && q.status == .completed)).map
            (fun q => q.score.getD 0)).sum
          / ((exDbB.quizzes.filter (fun q =>
            q.user_id == 1 && q.status == .completed)).length : ℚ)) ∧
    ((∀ q ∈ exDbB.quizzes.filter (fun q => q.user_id == 1 && q.status == .completed),
        q.score.isSome) →
      (get_analytics_overview_scalars exDbB 1 (.ok none)).avg_score
        = pyRound2 (specMeanNonNull exDbB 1)) :=
  C7_avg_score exDbB 1 (by decide)

/-! ## C8: generator-candidate validation -/

theorem validateOne_eq (ts : List String) (q : Candidate) :
    validateOne ts q = if specKeep ts q then some (specNormalize q) else none := by
  unfold validateOne specKeep specNormalize
  cases hq : q.question with
  | none => simp [hq]
  | some qtext =>
    cases ht : q.type with
    | none => simp [hq, ht]
    | some t =>
      cases hc : q.correct_answer with
      | none => simp [hq, ht, hc]
      | some ca =>
        have hopt : (q.type == some "true_false") = (t == "true_false") := by
          rw [ht]
          rfl
        by_cases hmcq : t = "mcq"
        case pos =>
          subst hmcq
          by_cases hmem : ("mcq" : String) ∈ ts
          · cases ho : q.options with
            | none => simp [hq, ht, hc, hmem, ho]
            | some os =>
              by_cases h4 : os.length = 4
              · simp [hq, ht, hc, hmem, ho, h4, hopt]
              · simp [hq, ht, hc, hmem, ho, h4]
          · simp [hq, ht, hc, hmem]
        case neg =>
          by_cases hmem : t ∈ ts
          · simp [hq, ht, hc, hmem, hmcq, hopt]
          · simp [hq, ht, hc, hmem]

theorem filterMap_guard (p : Candidate → Bool) (g : Candidate → Candidate)
    (l : List Candidate) :
    l.filterMap (fun q => if p q then some (g q) else none) = (l.filter p).map g := by
  induction l with
  | nil => rfl
  | cons x xs ih =>
    by_cases hp : p x
    · simp [List.filterMap_cons, List.filter_cons, hp, ih]
    · simp [List.filterMap_cons, List.filter_cons, hp, ih]

/-- C8 counterexample: a valid MCQ candidate whose `difficulty` key is
absent, requested at difficulty hard: validation defaults the difficulty
to the literal `"medium"` (it never sees the requested difficulty), so
the created question row is medium, not hard. -/
theorem C8_counterexample :
    runC8scenario = .ok [.medium] ∧
    (validate_questions [candNoDiff] ["mcq"]).map (fun q => q.difficulty) = [some "medium"] ∧
    Difficulty.medium ≠ .hard := by
  refine ⟨by decide, by decide, by decide⟩

theorem validate_eq_spec (qs : List Candidate) (ts : List String) :
    validate_questions qs ts = specValidate qs ts := by
  unfold validate_questions specValidate
  rw [show (validateOne ts)
      = (fun q => if specKeep ts q then some (specNormalize q) else none) from
    funext (validateOne_eq ts)]
  exact filterMap_guard _ _ qs

/-- C8 (amended): validation keeps exactly the candidates that carry
`question`, `type` and a correct answer and whose type is among the
allowed types, discarding an MCQ without exactly 4 options; a TrueFalse
option list is normalized to exactly `["True", "False"]`; a missing
explanation defaults to empty, a missing topic to `"General"`, and a
missing difficulty to the literal `"medium"` — not to the requested
difficulty. -/
theorem C8_validate_matches_spec (qs : List Candidate) (ts : List String) :
    validate_questions qs ts = specValidate qs ts :=
  validate_eq_spec qs ts

/-! ## C9: cache failures never propagate -/

/-- C9: a raised cache exception is absorbed by the service layer:
every failing `get` returns `None` exactly like a miss, every failing
`set`/`delete` is a no-op returning `None`, and the primary operations
(quiz generation, the analytics overview) produce the same result under
a failing cache as under a cache miss. -/
theorem C9_cache_failures_absorbed :
    (∀ e, get_cached_questions (.error e) = none) ∧
    (get_cached_questions (.ok none) = none) ∧
    (∀ e, get_cached_analytics (.error e) = none) ∧
    (∀ o, cache_generated_questions o = ()) ∧
    (∀ o, invalidate_user_cache o = ()) ∧
    (∀ (db : DB) (caller : Nat) (req : QuizGenerateRequest)
        (genRes : Except Unit (List Candidate)) (e : Unit),
      generate_quiz db caller req (.error e) genRes
        = generate_quiz db caller req (.ok none) genRes) ∧
    (∀ (db : DB) (userId : Nat) (e : Unit),
      get_analytics_overview_scalars db userId (.error e)
        = get_analytics_overview_scalars db userId (.ok none)) := by
  refine ⟨fun e => rfl, rfl, fun e => rfl, ?_, ?_, ?_, fun db u e => rfl⟩
  · intro o
    cases o with
    | error e => rfl
    | ok u => rfl
  · intro o
    cases o with
    | error e => rfl
    | ok u => rfl
  · intro db caller req genRes e
    rfl

/-! ## C10: no leakage of correct answers or explanations -/

theorem questionResponseOfRow_scrub (q : Question) :
    questionResponseOfRow (scrubQuestion q) = questionResponseOfRow q := rfl

theorem questionResponseOfCached_scrub (c : CachedQuestion) :
    questionResponseOfCached (scrubCached c) = questionResponseOfCached c := rfl

theorem buildCachedResponses_scrub (l : List CachedQuestion) :
    buildCachedResponses (l.map scrubCached) = buildCachedResponses l := by
  induction l with
  | nil => rfl
  | cons c cs ih =>
    show buildCachedResponses (scrubCached c :: cs.map scrubCached) = _
    unfold buildCachedResponses
    rw [questionResponseOfCached_scrub, ih]

theorem rowOfCandidate_scrub (qid cid : Nat) (c : Candidate) :
    (rowOfCandidate qid cid (scrubCandidate c)).map questionResponseOfRow
      = (rowOfCandidate qid cid c).map questionResponseOfRow := by
  unfold rowOfCandidate
  have ht : (scrubCandidate c).type = c.type := rfl
  have hd : (scrubCandidate c).difficulty = c.difficulty := rfl
  rw [ht, hd]
  cases QuestionType.ofString? (c.type.getD "") with
  | none => rfl
  | some qt =>
    cases Difficulty.ofString? (c.difficulty.getD "") with
    | none => rfl
    | some d => rfl

theorem buildRows_scrub (cid : Nat) (l : List Candidate) : ∀ qid : Nat,
    (buildRows qid cid (l.map scrubCandidate)).map (List.map questionResponseOfRow)
      = (buildRows qid cid l).map (List.map questionResponseOfRow) := by
  induction l with
  | nil => intro qid; rfl
  | cons c cs ih =>
    intro qid
    show (buildRows qid cid (scrubCandidate c :: cs.map scrubCandidate)).map
        (List.map questionResponseOfRow) = _
    unfold buildRows
    have h1 := rowOfCandidate_scrub qid cid c
    have h2 := ih (qid + 1)
    cases hc : rowOfCandidate qid cid c with
    | none =>
      have hcs : rowOfCandidate qid cid (scrubCandidate c) = none := by
        rw [hc] at h1
        simpa using h1
      rw [hcs]
    | some r =>
      rw [hc] at h1
      cases hcs : rowOfCandidate qid cid (scrubCandidate c) with
      | none => rw [hcs] at h1; simp at h1
      | some rr =>
        rw [hcs] at h1
        simp only [Option.map_some'] at h1
        obtain hproj := Option.some.inj h1
        cases hb : buildRows (qid + 1) cid cs with
        | none =>
          have hbs : buildRows (qid + 1) cid (cs.map scrubCandidate) = none := by
            rw [hb] at h2
            simpa using h2
          rw [hbs]
        | some rs =>
          rw [hb] at h2
          cases hbs : buildRows (qid + 1) cid (cs.map scrubCandidate) with
          | none => rw [hbs] at h2; simp at h2
          | some rrs =>
            rw [hbs] at h2
            simp only [Option.map_some'] at h2
            obtain hproj2 := Option.some.inj h2
            simp [hproj, hproj2]

theorem specKeep_scrub (ts : List String) (c : Candidate) :
    specKeep ts (scrubCandidate c) = specKeep ts c := by
  unfold specKeep scrubCandidate
  cases hc : c.correct_answer <;> simp [hc]

theorem specNormalize_scrub (c : Candidate) :
    specNormalize (scrubCandidate c) = scrubCandidate (specNormalize c) := by
  cases c with
  | mk question type options correct_answer explanation difficulty topic =>
    cases explanation <;> rfl

theorem validate_questions_scrub (l : List Candidate) (ts : List String) :
    validate_questions (l.map scrubCandidate) ts
      = (validate_questions l ts).map scrubCandidate := by
  rw [validate_eq_spec, validate_eq_spec]
  unfold specValidate
  rw [List.filter_map, List.map_map, List.map_map]
  have hfil : l.filter (specKeep ts ∘ scrubCandidate) = l.filter (specKeep ts) :=
    List.filter_congr (fun c _ => specKeep_scrub ts c)
  rw [hfil]
  exact List.map_congr_left (fun c _ => specNormalize_scrub c)

theorem get_cached_questions_scrub
    (r : Except Unit (Option (List CachedQuestion))) :
    get_cached_questions (scrubCacheRes r)
      = (get_cached_questions r).map (List.map scrubCached) := by
  cases r with
  | error e => rfl
  | ok v =>
    cases v with
    | none => rfl
    | some l => rfl

theorem get_quiz_scrub (db : DB) (caller quiz_id : Nat) :
    get_quiz (scrubDB db) caller quiz_id = get_quiz db caller quiz_id := by
  unfold get_quiz
  have hqz : (scrubDB db).quizzes = db.quizzes := rfl
  rw [hqz]
  cases hfq : db.quizzes.find? (fun q => q.id == quiz_id && q.user_id == caller) with
  | none => rfl
  | some quiz =>
    dsimp only
    cases hcid : quiz.content_id with
    | none => rfl
    | some cid =>
      dsimp only
      have hqs : (scrubDB db).questions = db.questions.map scrubQuestion := rfl
      rw [hqs, List.filter_map,
        List.filter_congr (fun (q : Question) _ =>
          show ((fun x => x.content_id == cid) ∘ scrubQuestion) q = (q.content_id == cid)
          from rfl),
        ← List.map_take, List.map_map]
      rfl

theorem generate_from_generator_scrub (db : DB) (caller : Nat)
    (req : QuizGenerateRequest) (content : Content)
    (genRes : Except Unit (List Candidate)) :
    (generate_from_generator (scrubDB db) caller req content (scrubGenRes genRes)).map
        (fun p => p.1)
      = (generate_from_generator db caller req content genRes).map (fun p => p.1) := by
  unfold generate_from_generator
  dsimp only
  have hraw : generatorOutput (scrubGenRes genRes)
      = (generatorOutput genRes).map scrubCandidate := by
    cases genRes with
    | error e => rfl
    | ok cands => rfl
  rw [hraw, validate_questions_scrub]
  have hempt : ∀ (l : List Candidate), (l.map scrubCandidate).isEmpty = l.isEmpty := by
    intro l
    cases l <;> rfl
  rw [hempt]
  by_cases he : (validate_questions (generatorOutput genRes)
      (req.question_types.map QuestionType.value)).isEmpty
  · rw [if_pos he, if_pos he]
  · rw [if_neg he, if_neg he]
    have hnq : (scrubDB db).nextQuestionId = db.nextQuestionId := rfl
    rw [hnq]
    have hbr := buildRows_scrub content.id (validate_questions (generatorOutput genRes)
      (req.question_types.map QuestionType.value)) db.nextQuestionId
    cases hb : buildRows db.nextQuestionId content.id
        (validate_questions (generatorOutput genRes)
          (req.question_types.map QuestionType.value)) with
    | none =>
      have hbs : buildRows db.nextQuestionId content.id
          ((validate_questions (generatorOutput genRes)
            (req.question_types.map QuestionType.value)).map scrubCandidate) = none := by
        rw [hb] at hbr
        simpa using hbr
      rw [hbs]
    | some rows =>
      rw [hb] at hbr
      cases hbs : buildRows db.nextQuestionId content.id
          ((validate_questions (generatorOutput genRes)
            (req.question_types.map QuestionType.value)).map scrubCandidate) with
      | none => rw [hbs] at hbr; simp at hbr
      | some rows' =>
        rw [hbs] at hbr
        simp only [Option.map_some'] at hbr
        obtain hproj := Option.some.inj hbr
        have hlen : rows'.length = rows.length := by
          have hl := congrArg List.length hproj
          simpa using hl
        dsimp only
        rw [hproj, hlen]
        rfl

theorem generate_quiz_scrub (db : DB) (caller : Nat) (req : QuizGenerateRequest)
    (cacheRes : Except Unit (Option (List CachedQuestion)))
    (genRes : Except Unit (List Candidate)) :
    (generate_quiz (scrubDB db) caller req (scrubCacheRes cacheRes) (scrubGenRes genRes)).map
        (fun p => p.1)
      = (generate_quiz db caller req cacheRes genRes).map (fun p => p.1) := by
  unfold generate_quiz
  have hc : (scrubDB db).contents = db.contents := rfl
  rw [hc]
  cases hfc : db.contents.find? (fun c => c.id == req.content_id && c.user_id == caller) with
  | none => rfl
  | some content =>
    rw [get_cached_questions_scrub]
    cases hgc : get_cached_questions cacheRes with
    | none =>
      dsimp only [Option.map_none']
      exact generate_from_generator_scrub db caller req content genRes
    | some l =>
      cases l with
      | nil =>
        dsimp only [Option.map_some', List.map_nil]
        exact generate_from_generator_scrub db caller req content genRes
      | cons c cs =>
        dsimp only [Option.map_some', List.map_cons]
        have htake : (scrubCached c :: cs.map scrubCached).take req.num_questions
            = ((c :: cs).take req.num_questions).map scrubCached := by
          rw [show (scrubCached c :: cs.map scrubCached)
              = (c :: cs).map scrubCached from rfl]
          exact (List.map_take _ _ _).symm
        rw [htake, buildCachedResponses_scrub]
        cases hb : buildCachedResponses ((c :: cs).take req.num_questions) with
        | none => rfl
        | some qrs =>
          dsimp only
          rw [List.length_map]
          rfl

/-- C10: the question payloads returned by quiz creation and by
fetching a quiz are independent of every question's canonical
`correct_answer` and `explanation` (the `QuestionResponse` schema has
no such fields): erasing those secrets from the store, the cached
question dictionaries and the generator candidates leaves `get_quiz`'s
response and `generate_quiz`'s response unchanged, so two states
differing only in those fields produce identical responses. -/
theorem C10_no_secret_leakage :
    (∀ (db : DB) (caller quiz_id : Nat),
      get_quiz (scrubDB db) caller quiz_id = get_quiz db caller quiz_id) ∧
    (∀ (db : DB) (caller : Nat) (req : QuizGenerateRequest)
        (cacheRes : Except Unit (Option (List CachedQuestion)))
        (genRes : Except Unit (List Candidate)),
      (generate_quiz (scrubDB db) caller req (scrubCacheRes cacheRes)
          (scrubGenRes genRes)).map (fun p => p.1)
        = (generate_quiz db caller req cacheRes genRes).map (fun p => p.1)) :=
  ⟨get_quiz_scrub, generate_quiz_scrub⟩

end AdaptiveQuiz
